import Mathlib

/-!
Verification development for the terraform-provider-nats JWT issuance engine.

The Go sources embedded here:
- the map-argument jwt function (src/unnamed/part_000, JwtFunction.Run) as runJwtFunction;
- the object-argument jwt function (src/internal/provider/jwt_function.go, JwtFunction.Run)
  as runJwtFunctionObj;
- the jwt resource engine (UpdateJWT, second part of src/internal/provider/pkey_function.go)
  as updateJWT;
- the nkey resource Read type mapping (src/internal/provider/nkey_resource.go) as nkeyReadType;
- the shared helpers hash / serialize / encodeToString and the b32Enc / b64Enc encoders
  (src/internal/provider/encoding.go and the tails of part_000 / pkey_function.go).

External library pieces (nkeys, nats-io/jwt/v2, crypto/sha512, encoding/json) are not part of
the repository; they are modelled from the spec where the spec describes their contract
(Seed Codec, Key Derivation, Canonicalizer, Signer) and from the documented library
semantics where the repository's behaviour depends on them; each such definition carries a
doc comment saying so.
-/

namespace Provider

/-- Key tiers, mirroring the nkeys.PrefixByte values this provider distinguishes
(operator, account, user); `unknown` stands for every other prefix value. -/
inductive PrefixByte where
  | operator
  | account
  | user
  | unknown
deriving DecidableEq, Repr

/-- Modelled from the spec (4.2 Key Derivation): a keypair derived from a seed's raw
entropy; it exposes a tier-tagged public identifier text and signing key material. -/
structure KeyPairModel where
  tier : PrefixByte
  pubText : String
  sk : List Nat
deriving DecidableEq, Repr

/-- Modelled from the spec (4.1 Seed Codec): a seed string abstracted by its raw text and
its decode outcome. `decoded = none` means nkeys.DecodeSeed / nkeys.FromSeed fail on it
(bad checksum or unrecognised tier); `decoded = some kp` means both succeed and yield the
tier and keypair recorded in `kp` (decode is deterministic, so both calls agree). -/
structure SeedText where
  text : String
  decoded : Option KeyPairModel
deriving DecidableEq, Repr

/-- Modelled from the spec (3. Data Model, PublicIdentifier): a tier-tagged textual public
identifier; `tier = .unknown` models a string that is not a valid public key of any of the
three tiers (nkeys.IsValidPublicOperatorKey / AccountKey / UserKey all reject it). -/
structure PubId where
  tier : PrefixByte
  text : String
deriving DecidableEq, Repr

/-! SHA-512/256, as used by crypto/sha512.New512_256 in `hash`.
Modelled from the spec (4.5 Identifier Hasher: a cryptographic hash of output width 32
bytes truncated from a 512-bit digest); this is a faithful executable FIPS 180-4
implementation whose round constants and initial values are derived, as in the standard,
from the fractional parts of square and cube roots of the first primes. -/

/-- First 80 primes, used to generate the SHA-512 constants. -/
def primes80 : List Nat :=
  [2, 3, 5, 7, 11, 13, 17, 19, 23, 29,
   31, 37, 41, 43, 47, 53, 59, 61, 67, 71,
   73, 79, 83, 89, 97, 101, 103, 107, 109, 113,
   127, 131, 137, 139, 149, 151, 157, 163, 167, 173,
   179, 181, 191, 193, 197, 199, 211, 223, 227, 229,
   233, 239, 241, 251, 257, 263, 269, 271, 277, 281,
   283, 293, 307, 311, 313, 317, 331, 337, 347, 349,
   353, 359, 367, 373, 379, 383, 389, 397, 401, 409]

/-- Binary search step for the integer cube root. -/
def icbrtGo (n : Nat) : Nat → Nat → Nat → Nat
  | 0, lo, _ => lo
  | fuel + 1, lo, hi =>
    if hi ≤ lo + 1 then lo
    else
      let mid := (lo + hi) / 2
      if mid * mid * mid ≤ n then icbrtGo n fuel mid hi else icbrtGo n fuel lo mid

/-- Integer cube root (largest x with x^3 ≤ n). -/
def icbrt (n : Nat) : Nat := icbrtGo n 280 0 (n + 1)

/-- Binary search step for the integer square root. -/
def isqrtGo (n : Nat) : Nat → Nat → Nat → Nat
  | 0, lo, _ => lo
  | fuel + 1, lo, hi =>
    if hi ≤ lo + 1 then lo
    else
      let mid := (lo + hi) / 2
      if mid * mid ≤ n then isqrtGo n fuel mid hi else isqrtGo n fuel lo mid

/-- Integer square root (largest x with x^2 ≤ n). -/
def isqrt (n : Nat) : Nat := isqrtGo n 280 0 (n + 1)

/-- Modulus 2^64. -/
def M64 : Nat := 18446744073709551616

/-- SHA-512 round constants, generated: first 64 bits of the fractional parts of the
cube roots of the first 80 primes. -/
def K512gen : List Nat := primes80.map (fun p => icbrt (p * 2 ^ 192) % M64)

/-- SHA-512 round constants as literals (K512_eq_gen proves they equal the generated
ones; the literals keep kernel evaluation shallow). -/
def K512 : List Nat :=
  [4794697086780616226, 8158064640168781261, 13096744586834688815, 16840607885511220156,
   4131703408338449720, 6480981068601479193, 10538285296894168987, 12329834152419229976,
   15566598209576043074, 1334009975649890238, 2608012711638119052, 6128411473006802146,
   8268148722764581231, 9286055187155687089, 11230858885718282805, 13951009754708518548,
   16472876342353939154, 17275323862435702243, 1135362057144423861, 2597628984639134821,
   3308224258029322869, 5365058923640841347, 6679025012923562964, 8573033837759648693,
   10970295158949994411, 12119686244451234320, 12683024718118986047, 13788192230050041572,
   14330467153632333762, 15395433587784984357, 489312712824947311, 1452737877330783856,
   2861767655752347644, 3322285676063803686, 5560940570517711597, 5996557281743188959,
   7280758554555802590, 8532644243296465576, 9350256976987008742, 10552545826968843579,
   11727347734174303076, 12113106623233404929, 14000437183269869457, 14369950271660146224,
   15101387698204529176, 15463397548674623760, 17586052441742319658, 1182934255886127544,
   1847814050463011016, 2177327727835720531, 2830643537854262169, 3796741975233480872,
   4115178125766777443, 5681478168544905931, 6601373596472566643, 7507060721942968483,
   8399075790359081724, 8693463985226723168, 9568029438360202098, 10144078919501101548,
   10430055236837252648, 11840083180663258601, 13761210420658862357, 14299343276471374635,
   14566680578165727644, 15097957966210449927, 16922976911328602910, 17689382322260857208,
   500013540394364858, 748580250866718886, 1242879168328830382, 1977374033974150939,
   2944078676154940804, 3659926193048069267, 4368137639120453308, 4836135668995329356,
   5532061633213252278, 6448918945643986474, 6902733635092675308, 7801388544844847127]

/-- SHA-512 initial hash value, generated: first 64 bits of the fractional parts of the
square roots of the first 8 primes. -/
def sha512IVgen : List Nat := (primes80.take 8).map (fun p => isqrt (p * 2 ^ 128) % M64)

/-- SHA-512 initial hash value as literals (sha512IV_eq_gen proves they equal the
generated ones). -/
def sha512IV : List Nat :=
  [7640891576956012808, 13503953896175478587, 4354685564936845355,
   11912009170470909681, 5840696475078001361, 11170449401992604703,
   2270897969802886507, 6620516959819538809]

/-- Addition mod 2^64. -/
def add64 (a b : Nat) : Nat := (a + b) % M64

/-- Right rotation of a 64-bit word. -/
def rotr (k n : Nat) : Nat := ((n >>> k) ||| (n <<< (64 - k))) % M64

/-- Three-way xor. -/
def xor3 (a b c : Nat) : Nat := (a ^^^ b) ^^^ c

/-- SHA-512 Ch function. -/
def shaCh (x y z : Nat) : Nat := (x &&& y) ^^^ ((x ^^^ (M64 - 1)) &&& z)

/-- SHA-512 Maj function. -/
def shaMaj (x y z : Nat) : Nat := ((x &&& y) ^^^ (x &&& z)) ^^^ (y &&& z)

/-- SHA-512 big Sigma0. -/
def bigS0 (x : Nat) : Nat := xor3 (rotr 28 x) (rotr 34 x) (rotr 39 x)

/-- SHA-512 big Sigma1. -/
def bigS1 (x : Nat) : Nat := xor3 (rotr 14 x) (rotr 18 x) (rotr 41 x)

/-- SHA-512 small sigma0. -/
def smallS0 (x : Nat) : Nat := xor3 (rotr 1 x) (rotr 8 x) (x >>> 7)

/-- SHA-512 small sigma1. -/
def smallS1 (x : Nat) : Nat := xor3 (rotr 19 x) (rotr 61 x) (x >>> 6)

/-- Big-endian bytes of a number, fixed width k. -/
def beBytes : Nat → Nat → List Nat
  | 0, _ => []
  | k + 1, n => beBytes k (n >>> 8) ++ [n % 256]

/-- SHA padding: append 0x80, zeros, and the 16-byte big-endian bit length so the total
length is a multiple of 128 bytes. -/
def pad512 (msg : List Nat) : List Nat :=
  let L := msg.length
  let k := (112 + 128 - (L + 1) % 128) % 128
  msg ++ [128] ++ List.replicate k 0 ++ beBytes 16 (8 * L)

/-- Split bytes into big-endian 64-bit words. -/
def chunk8 : List Nat → List Nat
  | b0 :: b1 :: b2 :: b3 :: b4 :: b5 :: b6 :: b7 :: rest =>
    (((((((b0 * 256 + b1) * 256 + b2) * 256 + b3) * 256 + b4) * 256 + b5) * 256 + b6) *
        256 + b7) :: chunk8 rest
  | _ => []

/-- Split a byte list into 128-byte blocks (fuel-driven). -/
def blocksGo : Nat → List Nat → List (List Nat)
  | 0, _ => []
  | _, [] => []
  | fuel + 1, l => l.take 128 :: blocksGo fuel (l.drop 128)

/-- All 128-byte blocks of a padded message. -/
def blocks (l : List Nat) : List (List Nat) := blocksGo l.length l

/-- Message schedule: extend 16 words to 80. -/
def sched (w16 : List Nat) : List Nat :=
  (List.range 64).foldl
    (fun w _ =>
      let n := w.length
      w ++ [add64 (add64 (smallS1 (w.getD (n - 2) 0)) (w.getD (n - 7) 0))
              (add64 (smallS0 (w.getD (n - 15) 0)) (w.getD (n - 16) 0))])
    w16

/-- One SHA-512 round on the 8-word state. -/
def shaRound (w : List Nat) (s : List Nat) (t : Nat) : List Nat :=
  match s with
  | [a, b, c, d, e, f, g, h] =>
    let t1 := add64 h (add64 (bigS1 e) (add64 (shaCh e f g)
      (add64 (K512.getD t 0) (w.getD t 0))))
    let t2 := add64 (bigS0 a) (shaMaj a b c)
    [add64 t1 t2, a, b, c, add64 d t1, e, f, g]
  | s => s

/-- One SHA-512 block compression. -/
def compress (H : List Nat) (block : List Nat) : List Nat :=
  let w := sched (chunk8 block)
  List.zipWith add64 H ((List.range 80).foldl (shaRound w) H)

/-- SHA-512 core with a caller-supplied initial value, returning the 8 state words. -/
def sha512Core (iv : List Nat) (msg : List Nat) : List Nat :=
  (blocks (pad512 msg)).foldl compress iv

/-- ASCII bytes of the string "SHA-512/256", used by the FIPS 180-4 IV generation. -/
def iv256Tag : List Nat := [83, 72, 65, 45, 53, 49, 50, 47, 50, 53, 54]

/-- SHA-512/256 initial value, generated per FIPS 180-4 section 5.3.6. -/
def iv256gen : List Nat :=
  sha512Core (sha512IV.map (fun h => h ^^^ 11936128518282651045)) iv256Tag

/-- SHA-512/256 initial value as literals (iv256_eq_gen proves they equal the generated
ones). -/
def iv256 : List Nat :=
  [2463787394917988140, 11481187982095705282, 2563595384472711505,
   10824532655140301501, 10819967247969091555, 13717434660681038226,
   3098927326965381290, 1060366662362279074]

/-- SHA-512/256 digest: 32 bytes. -/
def sha512_256 (msg : List Nat) : List Nat :=
  ((sha512Core iv256 msg).take 4).flatMap (beBytes 8)

/-- Plain SHA-512 digest: 64 bytes (used by the modelled deterministic signer). -/
def sha512Full (msg : List Nat) : List Nat :=
  (sha512Core sha512IV msg).flatMap (beBytes 8)

/-! Byte-level encoders: base32 (StdEncoding, no padding) and base64url (RawURLEncoding),
as produced by encoding/base32 and encoding/base64 for `b32Enc` and `encodeToString`. -/

/-- UTF-8 bytes of a unicode code point. -/
def utf8Char (n : Nat) : List Nat :=
  if n < 128 then [n]
  else if n < 2048 then [192 + n / 64, 128 + n % 64]
  else if n < 65536 then [224 + n / 4096, 128 + (n / 64) % 64, 128 + n % 64]
  else [240 + n / 262144, 128 + (n / 4096) % 64, 128 + (n / 64) % 64, 128 + n % 64]

/-- UTF-8 bytes of a string (Go strings are byte slices of UTF-8 text). -/
def utf8Bytes (s : String) : List Nat := s.data.flatMap (fun c => utf8Char c.toNat)

/-- Fold a byte list into one big-endian natural number. -/
def bytesToNat (l : List Nat) : Nat := l.foldl (fun acc b => acc * 256 + b) 0

/-- Generic no-padding base-2^bitsPer encoder over an alphabet, bit-for-bit the semantics
of Go's encoding/base32 and encoding/base64 without padding: the byte stream is read as a
bit stream, chopped into bitsPer-bit groups (the last group zero-padded on the right), and
each group indexes the alphabet. -/
def baseEnc (bitsPer : Nat) (alphabet : List Char) (l : List Nat) : String :=
  let totalBits := 8 * l.length
  let nChars := (totalBits + (bitsPer - 1)) / bitsPer
  let n := bytesToNat l <<< (bitsPer * nChars - totalBits)
  String.mk ((List.range nChars).map (fun i =>
    alphabet.getD ((n >>> (bitsPer * (nChars - 1 - i))) % 2 ^ bitsPer) 'A'))

/-- The standard base32 alphabet. -/
def b32Chars : List Char := "ABCDEFGHIJKLMNOPQRSTUVWXYZ234567".data

/-- The base64url alphabet. -/
def b64UrlChars : List Char :=
  "ABCDEFGHIJKLMNOPQRSTUVWXYZabcdefghijklmnopqrstuvwxyz0123456789-_".data

/-- base32.StdEncoding.WithPadding(NoPadding), i.e. the provider's b32Enc. -/
def b32Enc (l : List Nat) : String := baseEnc 5 b32Chars l

/-- base64.RawURLEncoding.EncodeToString, i.e. the provider's encodeToString target. -/
def rawURLEnc (l : List Nat) : String := baseEnc 6 b64UrlChars l

/-! Go's strconv.ParseInt(s, 10, 64), as used for the exp / nbf / iat map arguments. -/

/-- Decimal digit value of a character, if any. -/
def decDigit (c : Char) : Option Nat :=
  if 48 ≤ c.toNat ∧ c.toNat ≤ 57 then some (c.toNat - 48) else none

/-- Parse a non-empty all-digit run to its value. -/
def parseDigits : List Char → Option Nat
  | [] => none
  | cs =>
    cs.foldl
      (fun acc c =>
        match acc, decDigit c with
        | some a, some d => some (a * 10 + d)
        | _, _ => none)
      (some 0)

/-- Go strconv.ParseInt(s, 10, 64): returns (value, ok). On a syntax error the returned
value is 0; on a range error it is the clamped min/max int64; ok is false in both cases. -/
def goParseInt64 (s : String) : Int × Bool :=
  match s.data with
  | [] => (0, false)
  | c :: rest =>
    if c = '+' then
      match parseDigits rest with
      | none => (0, false)
      | some v => if v ≥ 2 ^ 63 then ((2 : Int) ^ 63 - 1, false) else ((v : Int), true)
    else if c = '-' then
      match parseDigits rest with
      | none => (0, false)
      | some v => if v > 2 ^ 63 then (-(2 : Int) ^ 63, false) else (-(v : Int), true)
    else
      match parseDigits (c :: rest) with
      | none => (0, false)
      | some v => if v ≥ 2 ^ 63 then ((2 : Int) ^ 63 - 1, false) else ((v : Int), true)

/-! JSON serialization. Modelled from the spec (4.6 Canonicalizer: compact JSON with
unset optional fields omitted) and Go's encoding/json semantics for the jwt/v2 structs:
struct fields are emitted in declaration order, omitempty drops zero values, map keys are
emitted in sorted order, and strings are escaped Go-style (including <, > and &). -/

/-- Lowercase hex digit. -/
def hexDigit (n : Nat) : Char := "0123456789abcdef".data.getD (n % 16) '0'

/-- Go encoding/json escaping of a single character. -/
def goJsonEscapeChar (c : Char) : String :=
  if c = '"' then "\\\""
  else if c = '\\' then "\\\\"
  else if c = '\n' then "\\n"
  else if c = '\r' then "\\r"
  else if c = '\t' then "\\t"
  else if c = '<' then "\\u003c"
  else if c = '>' then "\\u003e"
  else if c = '&' then "\\u0026"
  else if c.toNat < 32 then
    String.mk ['\\', 'u', '0', '0', hexDigit (c.toNat / 16), hexDigit c.toNat]
  else if c.toNat = 8232 then "\\u2028"
  else if c.toNat = 8233 then "\\u2029"
  else String.mk [c]

/-- Quoted, escaped JSON string. -/
def goQuote (s : String) : String :=
  "\"" ++ String.join (s.data.map goJsonEscapeChar) ++ "\""

/-- JSON rendering of an int64 value. -/
def jsonInt (i : Int) : String :=
  if i < 0 then "-" ++ Nat.repr i.natAbs else Nat.repr i.toNat

/-! The claims model: jwt/v2's ClaimsData envelope plus the tier-specific payload stored
under the "nats" key. Tags, limits and the other optional payload fields the provider
never touches are outside the model's scope; signing keys and the generic type / version
fields are modelled because the provider reads and writes them. -/

/-- Envelope fields of jwt.ClaimsData, in the struct's JSON declaration order. All carry
omitempty, so zero values are dropped from the serialization. -/
structure ClaimsData where
  aud : String := ""
  exp : Int := 0
  jti : String := ""
  iat : Int := 0
  iss : String := ""
  name : String := ""
  nbf : Int := 0
  sub : String := ""
deriving DecidableEq, Repr

/-- jwt.ClaimType values the provider uses. -/
inductive ClaimType where
  | operatorClaim
  | accountClaim
  | userClaim
deriving DecidableEq, Repr

/-- jwt.GenericFields (inside the nats payload): claim type and version, both omitempty. -/
structure GenericFields where
  typeTag : Option ClaimType := none
  version : Int := 0
deriving DecidableEq, Repr

/-- The tier-specific payload: operator signing-key list, account signing-key-to-scope
map (kept as a Go-map range-order snapshot: the list order records the incidental order
in which the map happens to be enumerated, so one logical map is represented by every
permutation of its entries), or the plain user payload. A scope is modelled as an
optional tag (nil scope or a user scope carrying a role string). -/
inductive Payload where
  | opP (signingKeys : List String) (gf : GenericFields)
  | acctP (signingKeys : List (String × Option String)) (gf : GenericFields)
  | userP (gf : GenericFields)
deriving DecidableEq, Repr

/-- A full claims value: envelope plus payload. -/
structure FullClaims where
  cd : ClaimsData
  payload : Payload
deriving DecidableEq, Repr

/-- JSON string of a claim type. -/
def claimTypeStr : ClaimType → String
  | .operatorClaim => "operator"
  | .accountClaim => "account"
  | .userClaim => "user"

/-- Envelope JSON fields with omitempty, in jwt.ClaimsData declaration order. -/
def cdFields (c : ClaimsData) : List String :=
  (if c.aud = "" then [] else ["\"aud\":" ++ goQuote c.aud]) ++
  (if c.exp = 0 then [] else ["\"exp\":" ++ jsonInt c.exp]) ++
  (if c.jti = "" then [] else ["\"jti\":" ++ goQuote c.jti]) ++
  (if c.iat = 0 then [] else ["\"iat\":" ++ jsonInt c.iat]) ++
  (if c.iss = "" then [] else ["\"iss\":" ++ goQuote c.iss]) ++
  (if c.name = "" then [] else ["\"name\":" ++ goQuote c.name]) ++
  (if c.nbf = 0 then [] else ["\"nbf\":" ++ jsonInt c.nbf]) ++
  (if c.sub = "" then [] else ["\"sub\":" ++ goQuote c.sub])

/-- json.Marshal of a bare jwt.ClaimsData value, the exact bytes the provider's `hash`
function digests. -/
def jsonClaimsData (c : ClaimsData) : String :=
  "\x7b" ++ String.intercalate "," (cdFields c) ++ "\x7d"

/-- Generic fields JSON (type then version, both omitempty). -/
def gfFields (g : GenericFields) : List String :=
  (match g.typeTag with
   | none => []
   | some t => ["\"type\":" ++ goQuote (claimTypeStr t)]) ++
  (if g.version = 0 then [] else ["\"version\":" ++ jsonInt g.version])

/-- One entry of jwt/v2's custom SigningKeys.MarshalJSON: a nil scope contributes the
bare key string, a user scope its scope object (kind, the key, and the role standing in
for the scope's contents; the permission template is outside the model's scope). The
entries are NOT sorted: they are emitted in the incidental Go-map range order the
snapshot records, which is exactly what the spec flags as a latent determinism bug. -/
def skEntry (p : String × Option String) : String :=
  match p.2 with
  | none => goQuote p.1
  | some s =>
    "\x7b\"kind\":\"user_scope\",\"key\":" ++ goQuote p.1 ++ ",\"role\":" ++ goQuote s ++ "\x7d"

/-- json.Marshal of the nats payload section. The account signing-key map is serialized
by jwt/v2's SigningKeys.MarshalJSON as a JSON array in map range order (unsorted), not as
a sorted object. -/
def jsonPayload : Payload → String
  | .opP sks gf =>
    "\x7b" ++ String.intercalate ","
      ((if sks = [] then []
        else ["\"signing_keys\":[" ++ String.intercalate "," (sks.map goQuote) ++ "]"]) ++
       gfFields gf) ++ "\x7d"
  | .acctP sks gf =>
    "\x7b" ++ String.intercalate ","
      ((if sks = [] then []
        else ["\"signing_keys\":[" ++ String.intercalate "," (sks.map skEntry) ++ "]"]) ++
       gfFields gf) ++ "\x7d"
  | .userP gf => "\x7b" ++ String.intercalate "," (gfFields gf) ++ "\x7d"

/-- json.Marshal of a full claims value: envelope fields then the "nats" payload (a Go
struct field is never dropped by omitempty, so "nats" is always present). -/
def jsonClaims (c : FullClaims) : String :=
  "\x7b" ++ String.intercalate ","
    (cdFields c.cd ++ ["\"nats\":" ++ jsonPayload c.payload]) ++ "\x7d"

/-! The provider's own helpers from the tails of part_000 / pkey_function.go. -/

/-- The provider's `hash` helper: json.Marshal of the bare ClaimsData envelope (the
argument is `*cliams.Claims()`), SHA-512/256, then b32Enc (base32, no padding). -/
def hash (cd : ClaimsData) : String := b32Enc (sha512_256 (utf8Bytes (jsonClaimsData cd)))

/-- The provider's `encodeToString`: base64.RawURLEncoding.EncodeToString. -/
def encodeToString (d : List Nat) : String := rawURLEnc d

/-- The provider's `serialize`: json.Marshal (here: the already-rendered JSON text) then
encodeToString. -/
def serialize (s : String) : String := encodeToString (utf8Bytes s)

/-- json.Marshal of jwt.Header with Type = jwt.TokenTypeJwt and
Algorithm = jwt.AlgorithmNkey. -/
def headerJson : String := "\x7b\"typ\":\"JWT\",\"alg\":\"ed25519-nkey\"\x7d"

/-- Modelled from the spec (4.2: Sign is deterministic per the standard asymmetric
signing scheme): a deterministic 64-byte signature over the message, derived from the
issuer's secret material. -/
def signEd (sk : List Nat) (msg : List Nat) : List Nat := sha512Full (sk ++ msg)

/-- Overwrite the envelope's jti (ID) field. -/
def setJti (v : String) (c : FullClaims) : FullClaims :=
  { c with cd := { c.cd with jti := v } }

/-- The shared token-finalization tail of JwtFunction.Run (part_000) and UpdateJWT:
set claims.ID to "" and recompute it with `hash`, serialize the header and the payload,
sign header "." payload, and return the dot-joined token with the final claims. -/
def finalizeToken (issuer : KeyPairModel) (c0 : FullClaims) : String × FullClaims :=
  let c1 := setJti (hash { c0.cd with jti := "" }) c0
  let header := serialize headerJson
  let payload := serialize (jsonClaims c1)
  let toSign := header ++ "." ++ payload
  let sig := signEd issuer.sk (utf8Bytes toSign)
  (toSign ++ "." ++ encodeToString sig, c1)

/-! Modelled nats-io/jwt/v2 library behaviour that the provider calls into. -/

/-- Claim type selected by the subject's tier (only ever applied to the three real
tiers; the branches guarantee `unknown` never reaches it). -/
def claimTypeOfTier : PrefixByte → ClaimType
  | .operator => .operatorClaim
  | .account => .accountClaim
  | _ => .userClaim

/-- Modelled library check: OperatorClaims/AccountClaims/UserClaims.Encode validates that
the subject is a public key of the claim's own tier. -/
def libSubjectOk : ClaimType → PrefixByte → Bool
  | .operatorClaim, t => t == .operator
  | .accountClaim, t => t == .account
  | .userClaim, t => t == .user

/-- Modelled library data: ExpectedPrefixes of each claim type — the issuer tiers the
library's encode accepts (account claims may be self-signed). -/
def expectedIssuerTiers : ClaimType → List PrefixByte
  | .operatorClaim => [.operator]
  | .accountClaim => [.operator, .account]
  | .userClaim => [.account]

/-- Overwrite the envelope's IssuedAt field. -/
def setIat (v : Int) (c : FullClaims) : FullClaims :=
  { c with cd := { c.cd with iat := v } }

/-- Set the generic type / version fields of a payload, as the library encode does. -/
def withGf (ct : ClaimType) (v : Int) : Payload → Payload
  | .opP l _ => .opP l ⟨some ct, v⟩
  | .acctP l _ => .acctP l ⟨some ct, v⟩
  | .userP _ => .userP ⟨some ct, v⟩

/-- The claims value the library encode finalizes: Issuer and IssuedAt stamped into the
envelope, type/version stamped into the payload. -/
def encReady (now : Int) (issuer : KeyPairModel) (ct : ClaimType) (c : FullClaims) :
    FullClaims :=
  { cd := { c.cd with iss := issuer.pubText, iat := now },
    payload := withGf ct 2 c.payload }

/-- Modelled from the spec (4.7 Signer) and the jwt/v2 library: Claims.Encode(pair)
validates the subject and the issuer tier, stamps Issuer, IssuedAt := now and the
type/version fields into the claims, computes the claim ID, and produces the token. The
mutated claims are returned alongside, because part_000's Run keeps using them after
discarding the library token. -/
def libEncode (now : Int) (issuer : KeyPairModel) (subTier : PrefixByte) (ct : ClaimType)
    (c : FullClaims) : Except String (String × FullClaims) :=
  if libSubjectOk ct subTier then
    if (expectedIssuerTiers ct).contains issuer.tier then
      .ok (finalizeToken issuer (encReady now issuer ct c))
    else .error "unable to validate expected prefixes"
  else .error "invalid subject"

/-! Inputs: the nats extension blob and the argument records of the three entry points. -/

/-- Operator extension payload shape (the fields the provider touches). -/
structure OpExt where
  signingKeys : List SeedText := []
deriving DecidableEq, Repr

/-- Account extension payload shape: the unmarshalled signing-key map, recorded in Go-map
range order. A given textual nats blob fixes the map's contents but not its range order,
so byte-identical inputs may be represented here by any permutation of the entries. -/
structure AcctExt where
  signingKeys : List (SeedText × Option String) := []
deriving DecidableEq, Repr

/-- Modelled from the spec (4.3): a nats extension JSON text abstracted by its
json.Unmarshal outcome into each of the three payload shapes (`none` = unmarshal error
for that shape). -/
structure NatsBlob where
  asOperator : Option OpExt := none
  asAccount : Option AcctExt := none
  asUser : Option Unit := none
deriving DecidableEq, Repr

/-- Failure outcomes of the jwt functions: a surfaced function error, or a Go runtime
panic (nil-interface method call). -/
inductive Fail where
  | err (msg : String)
  | panic (msg : String)
deriving DecidableEq, Repr

/-- Decidable equality for Except outcomes (used to state concrete evaluations). -/
instance {e a : Type} [DecidableEq e] [DecidableEq a] : DecidableEq (Except e a) := fun x y =>
  match x, y with
  | .error e1, .error e2 =>
    if h : e1 = e2 then isTrue (by rw [h])
    else isFalse (by intro hc; injection hc; contradiction)
  | .ok v1, .ok v2 =>
    if h : v1 = v2 then isTrue (by rw [h])
    else isFalse (by intro hc; injection hc; contradiction)
  | .error e1, .ok v2 => isFalse (fun hc => Except.noConfusion hc)
  | .ok v1, .error e2 => isFalse (fun hc => Except.noConfusion hc)

/-- Arguments of the map-parameter jwt function (part_000): the optional entries of the
map[string]string argument. Seeds are carried as their decode abstraction. -/
structure RunArgs where
  iss : Option SeedText := none
  sub : Option SeedText := none
  name : Option String := none
  aud : Option String := none
  exp : Option String := none
  nbf : Option String := none
  iat : Option String := none
  nats : Option NatsBlob := none
deriving Repr

/-- decodeNKey from part_000 / jwt_function.go: DecodeSeed + FromSeed + PublicKey on a
signing-key entry. -/
def decodeNKey (s : SeedText) : Option (PrefixByte × String) :=
  s.decoded.map (fun kp => (kp.tier, kp.pubText))

/-- The operator signing-key loop of JwtFunction.Run: decode each entry, require the
operator tier, and replace the entry by its public key (em is the decode-error message,
which differs between the two Run variants). -/
def processOpKeys (em : String) : List SeedText → Except Fail (List String)
  | [] => .ok []
  | s :: rest =>
    match decodeNKey s with
    | none => .error (.err em)
    | some (t, pk) =>
      if t = .operator then
        match processOpKeys em rest with
        | .error e => .error e
        | .ok l => .ok (pk :: l)
      else .error (.err "signing_key 类型错误")

/-- The account signing-key loop of JwtFunction.Run: decode each key, require the account
tier, and keep (publicKey, scope). -/
def processAcctKeys (em : String) :
    List (SeedText × Option String) → Except Fail (List (String × Option String))
  | [] => .ok []
  | (s, sc) :: rest =>
    match decodeNKey s with
    | none => .error (.err em)
    | some (t, pk) =>
      if t = .account then
        match processAcctKeys em rest with
        | .error e => .error e
        | .ok l => .ok ((pk, sc) :: l)
      else .error (.err "signing_key 类型错误")

/-- Go map insertion (overwrite on an existing key, append otherwise). -/
def mapInsert (m : List (String × Option String)) (k : String) (v : Option String) :
    List (String × Option String) :=
  if m.any (fun p => p.1 = k) then m.map (fun p => if p.1 = k then (k, v) else p)
  else m ++ [(k, v)]

/-- Build the fresh jwt.SigningKeys map the account branch fills entry by entry. -/
def buildMap (l : List (String × Option String)) : List (String × Option String) :=
  l.foldl (fun m p => mapInsert m p.1 p.2) []

/-- Everything JwtFunction.Run (part_000) does before calling cliams.Encode: argument
presence checks, subject and issuer seed decoding (an undecodable issuer seed panics,
because the error path misses its return and issuer.PublicKey() is then called on a nil
interface), the per-tier hierarchy check and payload construction, the
Issuer/Subject/Name/Audience envelope fields, the exp parse, and the nbf parse whose
error is discarded into `_` while the code checks a stale err that is always nil. -/
def runStage1 (a : RunArgs) : Except Fail (KeyPairModel × PrefixByte × FullClaims) :=
  match a.iss with
  | none => .error (.err "iss 不能为空")
  | some issS =>
  match a.sub with
  | none => .error (.err "sub 不能为空")
  | some subS =>
  match a.name with
  | none => .error (.err "name 不能为空")
  | some nm =>
  match subS.decoded with
  | none => .error (.err "sub 错误")
  | some skp =>
  match issS.decoded with
  | none => .error (.panic "issuer.PublicKey called on nil keypair")
  | some ikp =>
  match (match skp.tier with
    | .operator =>
      if ikp.tier = .operator then
        match a.nats with
        | none => .ok (Payload.opP [] ⟨none, 0⟩)
        | some nb =>
          match nb.asOperator with
          | none => .error (.err "nats 错误")
          | some ext =>
            match processOpKeys "signing_key 错误" ext.signingKeys with
            | .error e => .error e
            | .ok ks => .ok (Payload.opP ks ⟨none, 0⟩)
      else .error (.err "iss 错误")
    | .account =>
      if ikp.tier = .operator then
        match a.nats with
        | none => .ok (Payload.acctP [] ⟨none, 0⟩)
        | some nb =>
          match nb.asAccount with
          | none => .error (.err "nats 错误")
          | some ext =>
            match processAcctKeys "signing_key 错误" ext.signingKeys with
            | .error e => .error e
            | .ok ks => .ok (Payload.acctP (buildMap ks) ⟨none, 0⟩)
      else .error (.err "iss 错误")
    | .user =>
      if ikp.tier = .account then
        match a.nats with
        | none => .ok (Payload.userP ⟨none, 0⟩)
        | some nb =>
          match nb.asUser with
          | none => .error (.err "nats 错误")
          | some _ => .ok (Payload.userP ⟨none, 0⟩)
      else .error (.err "iss 错误")
    | .unknown => .error (.err "sub 类型错误") : Except Fail Payload) with
  | .error e => .error e
  | .ok pl =>
    let cd0 : ClaimsData :=
      { sub := skp.pubText, iss := ikp.pubText, name := nm,
        aud := match a.aud with | none => "" | some v => v }
    match (match a.exp with
      | none => .ok cd0
      | some s =>
        let pv := goParseInt64 s
        if pv.2 then .ok { cd0 with exp := pv.1 } else .error (Fail.err "exp 错误")
      : Except Fail ClaimsData) with
    | .error e => .error e
    | .ok cd1 =>
      let cd2 := match a.nbf with
        | none => cd1
        | some s => { cd1 with nbf := (goParseInt64 s).1 }
      .ok (ikp, skp.tier, { cd := cd2, payload := pl })

/-- The tail of JwtFunction.Run (part_000) after stage 1: cliams.Encode(issuer) (whose
token is discarded but whose claim mutations are kept), then the optional iat overwrite,
then the manual re-finalization (fresh ID hash, header, payload, signature, token). -/
def runTail (now : Int) (ikp : KeyPairModel) (st : PrefixByte) (c1 : FullClaims)
    (iatArg : Option String) : Except Fail (String × FullClaims) :=
  match libEncode now ikp st (claimTypeOfTier st) c1 with
  | .error _ => .error (.err "编码错误")
  | .ok (_, c2) =>
    match iatArg with
    | none => .ok (finalizeToken ikp c2)
    | some s =>
      let pv := goParseInt64 s
      if pv.2 then .ok (finalizeToken ikp (setIat pv.1 c2))
      else .error (.err "iat 错误")

/-- JwtFunction.Run of src/unnamed/part_000: stage 1, then the encode / iat / finalize
tail. -/
def runJwtFunction (now : Int) (a : RunArgs) : Except Fail (String × FullClaims) :=
  match runStage1 a with
  | .error e => .error e
  | .ok (ikp, st, c1) => runTail now ikp st c1 a.iat

/-- Arguments of the object-parameter jwt function (jwt_function.go). -/
structure ObjArgs where
  iss : Option SeedText := none
  sub : Option SeedText := none
  name : Option String := none
  aud : Option String := none
  exp : Option Int := none
  nbf : Option Int := none
  nats : Option NatsBlob := none
deriving Repr

/-- Everything JwtFunction.Run (jwt_function.go) does before Encode: presence checks,
subject decode, issuer decode (an undecodable issuer sets the error without returning,
so the nil keypair is carried on into Encode), the envelope fields, and the per-tier
payload with signing-key processing. This variant has no hierarchy check of its own. -/
def objStage1 (a : ObjArgs) : Except Fail (Option KeyPairModel × PrefixByte × FullClaims) :=
  match a.iss with
  | none => .error (.err "iss 不能为空")
  | some issS =>
  match a.sub with
  | none => .error (.err "sub 不能为空")
  | some subS =>
  match a.name with
  | none => .error (.err "name 不能为空")
  | some nm =>
  match subS.decoded with
  | none => .error (.err "sub 错误")
  | some skp =>
  let issOpt := issS.decoded
  let cd0 : ClaimsData :=
    { sub := skp.pubText, name := nm,
      aud := match a.aud with | none => "" | some v => v,
      exp := match a.exp with | none => 0 | some v => v,
      nbf := match a.nbf with | none => 0 | some v => v }
  match (match skp.tier with
    | .operator =>
      match a.nats with
      | none => .ok (Payload.opP [] ⟨none, 0⟩)
      | some nb =>
        match nb.asOperator with
        | none => .error (.err "nats 错误")
        | some ext =>
          match processOpKeys "signing_key 接码错误" ext.signingKeys with
          | .error e => .error e
          | .ok ks => .ok (Payload.opP ks ⟨none, 0⟩)
    | .account =>
      match a.nats with
      | none => .ok (Payload.acctP [] ⟨none, 0⟩)
      | some nb =>
        match nb.asAccount with
        | none => .error (.err "nats 错误")
        | some ext =>
          match processAcctKeys "signing_key 接码错误" ext.signingKeys with
          | .error e => .error e
          | .ok ks => .ok (Payload.acctP (buildMap ks) ⟨none, 0⟩)
    | .user =>
      match a.nats with
      | none => .ok (Payload.userP ⟨none, 0⟩)
      | some nb =>
        match nb.asUser with
        | none => .error (.err "nats 错误")
        | some _ => .ok (Payload.userP ⟨none, 0⟩)
    | .unknown => .error (.err "sub 类型错误") : Except Fail Payload) with
  | .error e => .error e
  | .ok pl => .ok (issOpt, skp.tier, { cd := cd0, payload := pl })

/-- JwtFunction.Run of jwt_function.go: stage 1, then cliams.Encode(issuer), whose token
is the result. On the nil keypair left by a bad issuer seed, jwt/v2's doEncode fails its
keypair nil-check and the error is surfaced as the encode error (overwriting the earlier
iss error in resp.Error). -/
def runJwtFunctionObj (now : Int) (a : ObjArgs) : Except Fail String :=
  match objStage1 a with
  | .error e => .error e
  | .ok (issOpt, st, c) =>
    match issOpt with
    | none => .error (.err "编码JWT错误")
    | some ikp =>
      match libEncode now ikp st (claimTypeOfTier st) c with
      | .error _ => .error (.err "编码JWT错误")
      | .ok (tok, _) => .ok tok

/-- The jwt resource's data model fields consumed by UpdateJWT (pkey_function.go second
part): sub is a public identifier string, iss a seed string, iat/exp/nbf nullable int64
attributes. -/
structure JwtData where
  name : String := ""
  sub : PubId
  iss : SeedText
  iat : Option Int := none
  exp : Option Int := none
  nbf : Option Int := none
  aud : Option String := none
  nats : Option NatsBlob := none
deriving Repr

/-- UpdateJWT's front half: classify the subject public key via the IsValidPublic*Key
cascade, decode the issuer seed (errors are returned properly here), apply the per-tier
issuer check — every branch, including the user branch, requires an Operator-tier
issuer — and unmarshal the nats blob as-is: no signing-key decoding, tier checking or
re-encoding happens in UpdateJWT. Every branch stamps Type = jwt.OperatorClaim and
Version = 2. -/
def updStage1 (d : JwtData) : Except String (KeyPairModel × FullClaims) :=
  if d.sub.tier = .unknown then .error "sub invalid"
  else
    match d.iss.decoded with
    | none => .error "invalid seed"
    | some ikp =>
      match (match d.sub.tier with
        | .operator =>
          if ikp.tier = .operator then
            match d.nats with
            | none => .ok (Payload.opP [] ⟨some .operatorClaim, 2⟩)
            | some nb =>
              match nb.asOperator with
              | none => .error "nats unmarshal error"
              | some ext =>
                .ok (Payload.opP (ext.signingKeys.map (fun s => s.text))
                  ⟨some .operatorClaim, 2⟩)
          else .error "isser invalid"
        | .account =>
          if ikp.tier = .operator then
            match d.nats with
            | none => .ok (Payload.acctP [] ⟨some .operatorClaim, 2⟩)
            | some nb =>
              match nb.asAccount with
              | none => .error "nats unmarshal error"
              | some ext =>
                .ok (Payload.acctP (ext.signingKeys.map (fun p => (p.1.text, p.2)))
                  ⟨some .operatorClaim, 2⟩)
          else .error "isser invalid"
        | .user =>
          if ikp.tier = .operator then
            match d.nats with
            | none => .ok (Payload.userP ⟨some .operatorClaim, 2⟩)
            | some nb =>
              match nb.asUser with
              | none => .error "nats unmarshal error"
              | some _ => .ok (Payload.userP ⟨some .operatorClaim, 2⟩)
          else .error "isser invalid"
        | .unknown => .error "sub invalid" : Except String Payload) with
      | .error e => .error e
      | .ok pl => .ok (ikp, { cd := { sub := d.sub.text }, payload := pl })

/-- UpdateJWT's envelope settings: Name, Issuer, and the issued-at logic that tests
data.Expires for null but reads data.IssuedAt (wall clock when exp is null, the iat
value — 0 when iat is null — otherwise), then the optional exp/nbf/aud fields. -/
def updStage2 (now : Int) (d : JwtData) (ikp : KeyPairModel) (c : FullClaims) : FullClaims :=
  let cd0 := { c.cd with name := d.name, iss := ikp.pubText }
  let cd1 := { cd0 with iat := match d.exp with | none => now | some _ => d.iat.getD 0 }
  let cd2 := match d.exp with | none => cd1 | some v => { cd1 with exp := v }
  let cd3 := match d.nbf with | none => cd2 | some v => { cd2 with nbf := v }
  let cd4 := match d.aud with | none => cd3 | some v => { cd3 with aud := v }
  { c with cd := cd4 }

/-- UpdateJWT of the jwt resource: stage 1, envelope settings, then the same
finalization tail as part_000 (ID hash, header, payload, signature, token); the claim ID
is also written into data.ID, recoverable here as the jti of the returned claims. -/
def updateJWT (now : Int) (d : JwtData) : Except String (String × FullClaims) :=
  match updStage1 d with
  | .error e => .error e
  | .ok (ikp, c0) => .ok (finalizeToken ikp (updStage2 now d ikp c0))

/-- NkeyResource.Read's type mapping: DecodeSeed the stored id and set the Type
attribute — the Account tier is mapped to the string "Operator" just like the Operator
tier. -/
def nkeyReadType (s : SeedText) : Except String String :=
  match s.decoded with
  | none => .error "读取 NKey"
  | some kp =>
    match kp.tier with
    | .operator => .ok "Operator"
    | .account => .ok "Operator"
    | .user => .ok "User"
    | .unknown => .error "未知类型"

/-! Derived definitions used only to state properties. -/

/-- The Identifier Hasher as the code implements it: `hash` of the envelope with the ID
field forced empty. -/
def computeID (c : FullClaims) : String := hash { c.cd with jti := "" }

/-- The Identifier Hash as the claim words it: base-32 no-padding encoding of the
SHA-512/256 digest of the JSON serialization of the full claims — envelope plus
payload — with the ID field forced to the empty string. -/
def specIDFull (c : FullClaims) : String :=
  b32Enc (sha512_256 (utf8Bytes (jsonClaims { c with cd := { c.cd with jti := "" } })))

/-- Generic type tag of a payload. -/
def gfType : Payload → Option ClaimType
  | .opP _ g => g.typeTag
  | .acctP _ g => g.typeTag
  | .userP g => g.typeTag

/-- Operator signing keys of a payload, if it is an operator payload. -/
def opKeysOf : Payload → Option (List String)
  | .opP l _ => some l
  | _ => none

/-- Account signing-key map of a payload, if it is an account payload. -/
def acctKeysOf : Payload → Option (List (String × Option String))
  | .acctP l _ => some l
  | _ => none

/-! Concrete fixtures used by witnesses and counterexamples. -/

/-- Fixture: an operator keypair. -/
def kOp : KeyPairModel := ⟨.operator, "OP1", [1]⟩

/-- Fixture: a second operator keypair. -/
def kOp2 : KeyPairModel := ⟨.operator, "OP2", [2]⟩

/-- Fixture: an account keypair. -/
def kAcct : KeyPairModel := ⟨.account, "AC1", [3]⟩

/-- Fixture: a second account keypair. -/
def kAcct2 : KeyPairModel := ⟨.account, "AC2", [7]⟩

/-- Fixture: a user keypair. -/
def kUser : KeyPairModel := ⟨.user, "US1", [4]⟩

/-- Fixture: a valid operator seed. -/
def sOp : SeedText := ⟨"SOOP1", some kOp⟩

/-- Fixture: a second valid operator seed. -/
def sOp2 : SeedText := ⟨"SOOP2", some kOp2⟩

/-- Fixture: a valid account seed. -/
def sAcct : SeedText := ⟨"SAAC1", some kAcct⟩

/-- Fixture: a second valid account seed. -/
def sAcct2 : SeedText := ⟨"SAAC2", some kAcct2⟩

/-- Fixture: a valid user seed. -/
def sUser : SeedText := ⟨"SUUS1", some kUser⟩

/-- Fixture: an undecodable seed string. -/
def sBad : SeedText := ⟨"JUNK", none⟩

/-- Fixture: account-subject run arguments without iat, for the wall-clock dependency. -/
def c3In : RunArgs := { iss := some sOp, sub := some sAcct, name := some "a" }

/-- Fixture: operator-subject run arguments with iat supplied. -/
def c4In : RunArgs := { iss := some sOp, sub := some sOp2, name := some "a", iat := some "3" }

/-- Fixture: run arguments with a non-integer nbf value. -/
def c6a : RunArgs := { iss := some sOp, sub := some sAcct, name := some "n", nbf := some "xyz" }

/-- Fixture: run arguments with an undecodable issuer seed. -/
def c6b : RunArgs := { iss := some sBad, sub := some sAcct, name := some "n" }

/-- Fixture: jwt resource data whose nats extension carries a user-tier signing key for an
operator payload. -/
def c7In : JwtData :=
  { name := "n", sub := ⟨.operator, "OP2"⟩, iss := sOp,
    nats := some { asOperator := some { signingKeys := [sUser] } } }

/-- Fixture: jwt resource data with a user-tier subject and a top-tier (operator) issuer. -/
def c1Upd : JwtData := { name := "n", sub := ⟨.user, "US1"⟩, iss := sOp }

/-- Fixture: jwt resource data with a user-tier subject and an org-tier (account) issuer. -/
def c1UpdAcct : JwtData := { name := "n", sub := ⟨.user, "US1"⟩, iss := sAcct }

/-- Fixture: run arguments with a user-tier subject and an operator issuer. -/
def w1Run : RunArgs := { iss := some sOp, sub := some sUser, name := some "n" }

/-- Fixture: run arguments with an account subject and a user-tier issuer. -/
def w2RunBad : RunArgs := { iss := some sUser, sub := some sAcct, name := some "n" }

/-- Fixture: run arguments with an account subject and an operator issuer. -/
def w2RunOk : RunArgs := { iss := some sOp, sub := some sAcct, name := some "n" }

/-- Fixture: jwt resource data with an account subject and a user-tier issuer. -/
def w2UpdBad : JwtData := { name := "n", sub := ⟨.account, "AC1"⟩, iss := sUser }

/-- Fixture: jwt resource data with an account subject and an operator issuer. -/
def w2UpdOk : JwtData := { name := "n", sub := ⟨.account, "AC1"⟩, iss := sOp }

/-- Fixture: object-variant arguments with an account subject and a user-tier issuer. -/
def w2ObjBad : ObjArgs := { iss := some sUser, sub := some sAcct, name := some "n" }

/-- Fixture: object-variant arguments with an account subject and an operator issuer. -/
def w2ObjOk : ObjArgs := { iss := some sOp, sub := some sAcct, name := some "n" }

/-- Fixture: run arguments with iat supplied, for the determinism witness. -/
def w3Run : RunArgs := { iss := some sOp, sub := some sAcct, name := some "a", iat := some "7" }

/-- Fixture: run arguments with an operator payload holding one valid operator signing
key. -/
def w7Run : RunArgs :=
  { iss := some sOp, sub := some sOp2, name := some "n",
    nats := some { asOperator := some { signingKeys := [sOp] } } }

/-- Fixture: run arguments with an operator payload holding a user-tier signing key. -/
def w7RunBad : RunArgs :=
  { iss := some sOp, sub := some sOp2, name := some "n",
    nats := some { asOperator := some { signingKeys := [sUser] } } }

/-- Fixture: run arguments with an account payload holding one valid account signing key
with a scope tag. -/
def w7RunAcct : RunArgs :=
  { iss := some sOp, sub := some sAcct, name := some "n",
    nats := some { asAccount := some { signingKeys := [(sAcct2, some "tag")] } } }

/-- Fixture: run arguments with an account payload holding a user-tier signing key. -/
def w7RunAcctBad : RunArgs :=
  { iss := some sOp, sub := some sAcct, name := some "n",
    nats := some { asAccount := some { signingKeys := [(sUser, none)] } } }

/-- Fixture: a two-entry signing-key map snapshot. -/
def w5a : List (String × Option String) := [("B", some "x"), ("A", none)]

/-- Fixture: the same map snapshot in the opposite iteration order. -/
def w5b : List (String × Option String) := [("A", none), ("B", some "x")]

/-- Fixture (C3/C5): an account-subject run with iat supplied whose two-entry signing-key
map is enumerated in one range order. -/
def ordIn1 : RunArgs :=
  { iss := some sOp, sub := some sAcct, name := some "a", iat := some "3",
    nats := some { asAccount := some ⟨[(sAcct, none), (sAcct2, some "x")]⟩ } }

/-- Fixture (C3/C5): the same logical input with the signing-key map enumerated in the
other range order. -/
def ordIn2 : RunArgs :=
  { iss := some sOp, sub := some sAcct, name := some "a", iat := some "3",
    nats := some { asAccount := some ⟨[(sAcct2, some "x"), (sAcct, none)]⟩ } }

end Provider

/-! Helper lemmas (shared between the claim theorems below). -/

namespace Provider

theorem finalizeToken_claims (kp : KeyPairModel) (c : FullClaims) :
    (finalizeToken kp c).2 = setJti (hash { c.cd with jti := "" }) c := rfl

theorem finalizeToken_payload (kp : KeyPairModel) (c : FullClaims) :
    (finalizeToken kp c).2.payload = c.payload := rfl

theorem finalizeToken_id (kp : KeyPairModel) (c : FullClaims) :
    (finalizeToken kp c).2.cd.jti = computeID (finalizeToken kp c).2 := rfl

theorem finalizeToken_fst (kp : KeyPairModel) (c : FullClaims) :
    (finalizeToken kp c).1 =
      serialize headerJson ++ "." ++ serialize (jsonClaims (finalizeToken kp c).2) ++ "." ++
        encodeToString (signEd kp.sk (utf8Bytes
          (serialize headerJson ++ "." ++ serialize (jsonClaims (finalizeToken kp c).2)))) := rfl

theorem b64Url_getD (m : Nat) :
    b64UrlChars.getD (m % 64) 'A' ∈ b64UrlChars ∧ b64UrlChars.getD (m % 64) 'A' ≠ '.' := by
  have h : ∀ k : Fin 64,
      b64UrlChars.getD k.1 'A' ∈ b64UrlChars ∧ b64UrlChars.getD k.1 'A' ≠ '.' := by decide
  exact h ⟨m % 64, Nat.mod_lt _ (by decide)⟩

theorem rawURLEnc_spec (l : List Nat) :
    ∀ c ∈ (rawURLEnc l).data, c ∈ b64UrlChars ∧ c ≠ '.' := by
  intro c hc
  rcases List.mem_map.mp hc with ⟨i, _, rfl⟩
  exact b64Url_getD _

theorem rawURLEnc_ne_empty (l : List Nat) (h : l ≠ []) : rawURLEnc l ≠ "" := by
  intro he
  have hd : (rawURLEnc l).data = [] := by rw [he]
  have hlen0 : (8 * l.length + 5) / 6 = 0 := by
    have hl := congrArg List.length hd
    simpa [rawURLEnc, baseEnc] using hl
  have hlen : 1 ≤ l.length := List.length_pos.mpr h
  omega

theorem utf8Char_ne_nil (n : Nat) : utf8Char n ≠ [] := by
  unfold utf8Char
  split_ifs <;> simp

theorem utf8Bytes_ne_nil (s : String) (h : s.data ≠ []) : utf8Bytes s ≠ [] := by
  unfold utf8Bytes
  cases hd : s.data with
  | nil => exact absurd hd h
  | cons c rest =>
    simp only [List.flatMap_cons, ne_eq, List.append_eq_nil]
    intro hcontr
    exact utf8Char_ne_nil c.toNat hcontr.1

theorem append_data_ne_nil_left (x y : String) (hx : x.data ≠ []) : (x ++ y).data ≠ [] := by
  rw [String.data_append]
  intro h
  exact hx (List.append_eq_nil.mp h).1

theorem jsonClaims_data_ne_nil (c : FullClaims) : (jsonClaims c).data ≠ [] := by
  unfold jsonClaims
  apply append_data_ne_nil_left
  apply append_data_ne_nil_left
  decide

theorem serialize_ne_empty (s : String) (h : s.data ≠ []) : serialize s ≠ "" :=
  rawURLEnc_ne_empty _ (utf8Bytes_ne_nil s h)

theorem serialize_spec (s : String) : ∀ c ∈ (serialize s).data, c ∈ b64UrlChars ∧ c ≠ '.' :=
  rawURLEnc_spec _

end Provider

namespace Provider

theorem runStage1_ok (a : RunArgs) (z : KeyPairModel × PrefixByte × FullClaims)
    (h : runStage1 a = .ok z) :
    ∃ it st skp nm, a.iss = some ⟨it, some z.1⟩ ∧ a.sub = some ⟨st, some skp⟩ ∧
      a.name = some nm := by
  cases ha : a.iss with
  | none => simp [runStage1, ha] at h
  | some issS =>
    obtain ⟨it, dec⟩ := issS
    cases hb : a.sub with
    | none => simp [runStage1, ha, hb] at h
    | some subS =>
      obtain ⟨st, sdec⟩ := subS
      cases hc : a.name with
      | none => simp [runStage1, ha, hb, hc] at h
      | some nm =>
        cases hd : sdec with
        | none => simp [runStage1, ha, hb, hc, hd] at h
        | some skp =>
          cases he : dec with
          | none => simp [runStage1, ha, hb, hc, hd, he] at h
          | some ikp =>
            subst hd
            subst he
            have hz : z.1 = ikp := by
              simp only [runStage1, ha, hb, hc] at h
              repeat' split at h
              all_goals try (exact Except.noConfusion h)
              all_goals (injection h with h2; subst h2; rfl)
            exact ⟨it, st, skp, nm, by rw [hz], rfl, rfl⟩

end Provider

namespace Provider

theorem updStage2_payload (now : Int) (d : JwtData) (ikp : KeyPairModel) (c : FullClaims) :
    (updStage2 now d ikp c).payload = c.payload := rfl

theorem runJwtFunction_ok (now : Int) (a : RunArgs) (r : String × FullClaims)
    (h : runJwtFunction now a = .ok r) :
    ∃ it ikp c, a.iss = some ⟨it, some ikp⟩ ∧ r = finalizeToken ikp c := by
  unfold runJwtFunction at h
  cases hs : runStage1 a with
  | error e => simp only [hs] at h; exact Except.noConfusion h
  | ok z =>
    obtain ⟨ikp, st, c1⟩ := z
    simp only [hs] at h
    obtain ⟨it, st2, skp, nm, hiss, hsub, hname⟩ := runStage1_ok a (ikp, st, c1) hs
    unfold runTail at h
    cases hl : libEncode now ikp st (claimTypeOfTier st) c1 with
    | error e => simp only [hl] at h; exact Except.noConfusion h
    | ok p =>
      obtain ⟨tok, c2⟩ := p
      simp only [hl] at h
      cases hi : a.iat with
      | none =>
        simp only [hi] at h
        injection h with h2
        exact ⟨it, ikp, c2, hiss, h2.symm⟩
      | some s =>
        simp only [hi] at h
        split at h
        · injection h with h2
          exact ⟨it, ikp, _, hiss, h2.symm⟩
        · exact Except.noConfusion h

theorem updStage1_ok (d : JwtData) (z : KeyPairModel × FullClaims)
    (h : updStage1 d = .ok z) :
    d.iss.decoded = some z.1 ∧ gfType z.2.payload = some .operatorClaim := by
  unfold updStage1 at h
  split at h
  · exact Except.noConfusion h
  · cases hd : d.iss.decoded with
    | none => rw [hd] at h; exact Except.noConfusion h
    | some ikp =>
      simp only [hd] at h
      split at h
      · exact Except.noConfusion h
      · rename_i pl hpl
        injection h with h2
        subst h2
        refine ⟨rfl, ?_⟩
        repeat' split at hpl
        all_goals try (exact Except.noConfusion hpl)
        all_goals (injection hpl with h3; subst h3; rfl)

theorem updateJWT_ok (now : Int) (d : JwtData) (r : String × FullClaims)
    (h : updateJWT now d = .ok r) :
    ∃ ikp c, d.iss.decoded = some ikp ∧ r = finalizeToken ikp c ∧
      gfType c.payload = some .operatorClaim := by
  unfold updateJWT at h
  cases hs : updStage1 d with
  | error e => simp only [hs] at h; exact Except.noConfusion h
  | ok z =>
    obtain ⟨ikp, c0⟩ := z
    simp only [hs] at h
    injection h with h2
    obtain ⟨hd, hg⟩ := updStage1_ok d (ikp, c0) hs
    exact ⟨ikp, updStage2 now d ikp c0, hd, h2.symm, by rw [updStage2_payload]; exact hg⟩

end Provider

namespace Provider

theorem decodeNKey_some (s : SeedText) (kp : KeyPairModel) (h : s.decoded = some kp) :
    decodeNKey s = some (kp.tier, kp.pubText) := by
  simp [decodeNKey, h]

theorem processOpKeys_ok_rel (em : String) (l : List SeedText) (out : List String)
    (h : processOpKeys em l = .ok out) :
    List.Forall₂ (fun s k => ∃ kp, s.decoded = some kp ∧ kp.tier = .operator ∧
      k = kp.pubText) l out := by
  induction l generalizing out with
  | nil =>
    simp only [processOpKeys] at h
    injection h with h2
    subst h2
    exact List.Forall₂.nil
  | cons s rest ih =>
    simp only [processOpKeys] at h
    cases hdec : decodeNKey s with
    | none => simp only [hdec] at h; exact Except.noConfusion h
    | some tp =>
      obtain ⟨t, pk⟩ := tp
      simp only [hdec] at h
      split at h
      · cases hrec : processOpKeys em rest with
        | error e => simp only [hrec] at h; exact Except.noConfusion h
        | ok l2 =>
          simp only [hrec] at h
          injection h with h2
          subst h2
          cases hsd : s.decoded with
          | none => rw [decodeNKey, hsd] at hdec; exact Option.noConfusion hdec
          | some kp =>
            rw [decodeNKey_some s kp hsd] at hdec
            injection hdec with h3
            injection h3 with h4 h5
            refine List.Forall₂.cons ⟨kp, hsd, ?_, ?_⟩ (ih l2 hrec)
            · rw [h4]; assumption
            · rw [h5]
      · exact Except.noConfusion h

theorem processAcctKeys_ok_rel (em : String) (l : List (SeedText × Option String))
    (out : List (String × Option String)) (h : processAcctKeys em l = .ok out) :
    List.Forall₂ (fun e p => ∃ kp, e.1.decoded = some kp ∧ kp.tier = .account ∧
      p.1 = kp.pubText ∧ p.2 = e.2) l out := by
  induction l generalizing out with
  | nil =>
    simp only [processAcctKeys] at h
    injection h with h2
    subst h2
    exact List.Forall₂.nil
  | cons e rest ih =>
    obtain ⟨s, sc⟩ := e
    simp only [processAcctKeys] at h
    cases hdec : decodeNKey s with
    | none => simp only [hdec] at h; exact Except.noConfusion h
    | some tp =>
      obtain ⟨t, pk⟩ := tp
      simp only [hdec] at h
      split at h
      · cases hrec : processAcctKeys em rest with
        | error e2 => simp only [hrec] at h; exact Except.noConfusion h
        | ok l2 =>
          simp only [hrec] at h
          injection h with h2
          subst h2
          cases hsd : s.decoded with
          | none => rw [decodeNKey, hsd] at hdec; exact Option.noConfusion hdec
          | some kp =>
            rw [decodeNKey_some s kp hsd] at hdec
            injection hdec with h3
            injection h3 with h4 h5
            refine List.Forall₂.cons ⟨kp, hsd, ?_, ?_, rfl⟩ (ih l2 hrec)
            · rw [h4]; assumption
            · rw [h5]
      · exact Except.noConfusion h

theorem processOpKeys_mismatch (em : String) (l : List SeedText)
    (hall : ∀ s ∈ l, (s.decoded).isSome = true)
    (hex : ∃ s ∈ l, ∃ kp, s.decoded = some kp ∧ kp.tier ≠ .operator) :
    processOpKeys em l = .error (.err "signing_key 类型错误") := by
  induction l with
  | nil => simp at hex
  | cons s rest ih =>
    have hs : (s.decoded).isSome = true := hall s (by simp)
    obtain ⟨kp, hkp⟩ := Option.isSome_iff_exists.mp hs
    have hdec : decodeNKey s = some (kp.tier, kp.pubText) := decodeNKey_some s kp hkp
    simp only [processOpKeys, hdec]
    by_cases ht : kp.tier = PrefixByte.operator
    · rw [if_pos ht]
      obtain ⟨s2, hs2, kp2, hkp2, ht2⟩ := hex
      rcases List.mem_cons.mp hs2 with heq | hmem
      · subst heq
        rw [hkp] at hkp2
        injection hkp2 with h3
        subst h3
        exact absurd ht ht2
      · have hrec := ih (fun x hx => hall x (List.mem_cons_of_mem _ hx))
          ⟨s2, hmem, kp2, hkp2, ht2⟩
        rw [hrec]
    · rw [if_neg ht]

theorem processAcctKeys_mismatch (em : String) (l : List (SeedText × Option String))
    (hall : ∀ e ∈ l, (e.1.decoded).isSome = true)
    (hex : ∃ e ∈ l, ∃ kp, e.1.decoded = some kp ∧ kp.tier ≠ .account) :
    processAcctKeys em l = .error (.err "signing_key 类型错误") := by
  induction l with
  | nil => simp at hex
  | cons e rest ih =>
    obtain ⟨s, sc⟩ := e
    have hs : (s.decoded).isSome = true := hall (s, sc) (by simp)
    obtain ⟨kp, hkp⟩ := Option.isSome_iff_exists.mp hs
    have hdec : decodeNKey s = some (kp.tier, kp.pubText) := decodeNKey_some s kp hkp
    simp only [processAcctKeys, hdec]
    by_cases ht : kp.tier = PrefixByte.account
    · rw [if_pos ht]
      obtain ⟨e2, he2, kp2, hkp2, ht2⟩ := hex
      rcases List.mem_cons.mp he2 with heq | hmem
      · subst heq
        simp only at hkp2
        rw [hkp] at hkp2
        injection hkp2 with h3
        subst h3
        exact absurd ht ht2
      · have hrec := ih (fun x hx => hall x (List.mem_cons_of_mem _ hx))
          ⟨e2, hmem, kp2, hkp2, ht2⟩
        rw [hrec]
    · rw [if_neg ht]

end Provider

/-! Validation theorems: the literal SHA constants equal their FIPS 180-4 generation
formulas, and the implementation reproduces the published SHA-512/256 test vector. -/

namespace Provider

set_option maxRecDepth 40000 in
theorem K512_eq_gen : K512 = K512gen := by decide

set_option maxRecDepth 40000 in
theorem sha512IV_eq_gen : sha512IV = sha512IVgen := by decide

set_option maxRecDepth 40000 in
theorem iv256_eq_gen : iv256 = iv256gen := by decide

set_option maxRecDepth 40000 in
theorem sha512_256_abc :
    sha512_256 [97, 98, 99] =
      [83, 4, 142, 38, 129, 148, 30, 249, 155, 46, 41, 183,
       107, 76, 125, 171, 228, 194, 208, 198, 52, 252, 109, 70,
       224, 226, 241, 49, 7, 231, 175, 35] := by decide

end Provider

/-! Claim theorems. -/

namespace Provider

/-- Claim C10: for every nkey resource whose stored seed decodes to the Account tier,
Read sets the resource's Type attribute to "Operator"; and after any successful Read the
Type is only ever "Operator" or "User", never "Account". -/
theorem c10_read_account_maps_operator :
    (∀ (s : SeedText) (kp : KeyPairModel), s.decoded = some kp → kp.tier = .account →
      nkeyReadType s = .ok "Operator") ∧
    (∀ (s : SeedText) (ty : String), nkeyReadType s = .ok ty →
      ty = "Operator" ∨ ty = "User") := by
  constructor
  · intro s kp hd ht
    simp [nkeyReadType, hd, ht]
  · intro s ty h
    unfold nkeyReadType at h
    cases hd : s.decoded with
    | none => simp only [hd] at h; exact Except.noConfusion h
    | some kp =>
      simp only [hd] at h
      cases ht : kp.tier <;> simp only [ht] at h
      · left; injection h with h2; exact h2.symm
      · left; injection h with h2; exact h2.symm
      · right; injection h with h2; exact h2.symm
      · exact Except.noConfusion h

/-- Witness for C10: the account-tier fixture seed reads back as "Operator", which is one
of the two only possible Type strings. -/
theorem c10_read_account_maps_operator_witness :
    nkeyReadType sAcct = .ok "Operator" ∧
    (("Operator" : String) = "Operator" ∨ ("Operator" : String) = "User") :=
  ⟨c10_read_account_maps_operator.1 sAcct kAcct rfl rfl,
   c10_read_account_maps_operator.2 sAcct "Operator"
     (c10_read_account_maps_operator.1 sAcct kAcct rfl rfl)⟩

/-- Claim C9: every token produced by the jwt resource's UpdateJWT carries the
OperatorClaim type tag in its payload, regardless of the subject's tier. -/
theorem c9_update_type_always_operator (now : Int) (d : JwtData) (r : String × FullClaims)
    (h : updateJWT now d = .ok r) : gfType r.2.payload = some ClaimType.operatorClaim := by
  obtain ⟨ikp, c, hd, hr, hg⟩ := updateJWT_ok now d r h
  rw [hr, finalizeToken_payload]
  exact hg

/-- Witness for C9: an Account-tier subject still receives the operator claim type. -/
theorem c9_update_type_always_operator_witness :
    ∃ r, updateJWT 0 w2UpdOk = .ok r ∧ gfType r.2.payload = some ClaimType.operatorClaim := by
  rcases hEq : updateJWT 0 w2UpdOk with e | r
  · exfalso
    have hok : (updateJWT 0 w2UpdOk).isOk = true := by decide
    rw [hEq] at hok
    simp [Except.isOk, Except.toBool] at hok
  · exact ⟨r, rfl, c9_update_type_always_operator 0 w2UpdOk r hEq⟩

set_option maxRecDepth 40000 in
/-- Claim C6 (code bug): a non-integer nbf does not abort issuance — its parse error is
discarded and NotBefore is silently zero-filled while a token is still produced; and an
issuer seed that fails to decode does not surface an error either: the missing return
leads to a method call on a nil keypair, a Go runtime panic. -/
theorem c6_error_not_surfaced :
    (runJwtFunction 5 c6a).isOk = true ∧
    ((runJwtFunction 5 c6a).toOption.map (fun r => r.2.cd.nbf)) = some 0 ∧
    runJwtFunction 5 c6b = .error (.panic "issuer.PublicKey called on nil keypair") := by
  refine ⟨by decide, by decide, by decide⟩

end Provider

namespace Provider

/-- Claim C1 counterexample: UpdateJWT accepts a Top-tier (operator) issuer for a
User-tier subject and rejects an Org-tier (account) issuer — the opposite of the claimed
"issuer must be Org-tier, all others rejected". -/
theorem c1_counterexample :
    (updateJWT 0 c1Upd).isOk = true ∧ updateJWT 0 c1UpdAcct = .error "isser invalid" :=
  ⟨by decide, by decide⟩

/-- Claim C1 (amended): in JwtFunction.Run a User-tier subject indeed requires an
Org-tier (account) issuer — any other issuer tier is rejected with the issuer error
before signing; but in UpdateJWT a User-tier subject instead requires a Top-tier
(operator) issuer, so non-operator (including Org-tier) issuers are rejected there. -/
theorem c1_user_issuer_rule :
    (∀ (now : Int) (a : RunArgs) (it st nm : String) (skp ikp : KeyPairModel),
      a.iss = some ⟨it, some ikp⟩ → a.sub = some ⟨st, some skp⟩ → a.name = some nm →
      skp.tier = .user → ikp.tier ≠ .account →
      runJwtFunction now a = .error (.err "iss 错误")) ∧
    (∀ (now : Int) (d : JwtData) (ikp : KeyPairModel),
      d.sub.tier = .user → d.iss.decoded = some ikp → ikp.tier ≠ .operator →
      updateJWT now d = .error "isser invalid") := by
  constructor
  · intro now a it st nm skp ikp h1 h2 h3 h4 h5
    have hstage : runStage1 a = .error (.err "iss 错误") := by
      simp [runStage1, h1, h2, h3, h4, h5]
    simp [runJwtFunction, hstage]
  · intro now d ikp h1 h2 h3
    have hstage : updStage1 d = .error "isser invalid" := by
      simp [updStage1, h1, h2, h3]
    simp [updateJWT, hstage]

/-- Witness for C1: a user-tier subject with an operator issuer is rejected by
JwtFunction.Run, and with an account issuer by UpdateJWT. -/
theorem c1_user_issuer_rule_witness :
    runJwtFunction 0 w1Run = .error (.err "iss 错误") ∧
    updateJWT 0 c1UpdAcct = .error "isser invalid" :=
  ⟨c1_user_issuer_rule.1 0 w1Run "SOOP1" "SUUS1" "n" kUser kOp rfl rfl rfl rfl (by decide),
   c1_user_issuer_rule.2 0 c1UpdAcct kAcct rfl rfl (by decide)⟩

end Provider

namespace Provider

/-- Claim C2: for an Org-tier (account) subject with otherwise valid inputs, a User-tier
issuer fails in all three issuance paths (part_000 Run and UpdateJWT reject it in their
hierarchy checks; the object-variant Run fails inside the library encode), and a Top-tier
(operator) issuer succeeds and returns a token. -/
theorem c2_org_subject_hierarchy :
    (∀ (now : Int) (a : RunArgs) (it st nm : String) (skp ikp : KeyPairModel),
      a.iss = some ⟨it, some ikp⟩ → a.sub = some ⟨st, some skp⟩ → a.name = some nm →
      skp.tier = .account → ikp.tier = .user →
      runJwtFunction now a = .error (.err "iss 错误")) ∧
    (∀ (now : Int) (a : RunArgs) (it st nm : String) (skp ikp : KeyPairModel),
      a.iss = some ⟨it, some ikp⟩ → a.sub = some ⟨st, some skp⟩ → a.name = some nm →
      a.aud = none → a.exp = none → a.nbf = none → a.iat = none → a.nats = none →
      skp.tier = .account → ikp.tier = .operator →
      (runJwtFunction now a).isOk = true) ∧
    (∀ (now : Int) (d : JwtData) (ikp : KeyPairModel),
      d.sub.tier = .account → d.iss.decoded = some ikp → ikp.tier = .user →
      updateJWT now d = .error "isser invalid") ∧
    (∀ (now : Int) (d : JwtData) (ikp : KeyPairModel),
      d.sub.tier = .account → d.iss.decoded = some ikp → ikp.tier = .operator →
      d.nats = none → (updateJWT now d).isOk = true) ∧
    (∀ (now : Int) (a : ObjArgs) (it st nm : String) (skp ikp : KeyPairModel),
      a.iss = some ⟨it, some ikp⟩ → a.sub = some ⟨st, some skp⟩ → a.name = some nm →
      a.nats = none → skp.tier = .account → ikp.tier = .user →
      runJwtFunctionObj now a = .error (.err "编码JWT错误")) ∧
    (∀ (now : Int) (a : ObjArgs) (it st nm : String) (skp ikp : KeyPairModel),
      a.iss = some ⟨it, some ikp⟩ → a.sub = some ⟨st, some skp⟩ → a.name = some nm →
      a.nats = none → skp.tier = .account → ikp.tier = .operator →
      (runJwtFunctionObj now a).isOk = true) := by
  refine ⟨?_, ?_, ?_, ?_, ?_, ?_⟩
  · intro now a it st nm skp ikp h1 h2 h3 h4 h5
    have hstage : runStage1 a = .error (.err "iss 错误") := by
      simp [runStage1, h1, h2, h3, h4, h5]
    simp [runJwtFunction, hstage]
  · intro now a it st nm skp ikp h1 h2 h3 ha he hb hi hn h4 h5
    simp [runJwtFunction, runTail, runStage1, libEncode, claimTypeOfTier, libSubjectOk,
      expectedIssuerTiers, h1, h2, h3, ha, he, hb, hi, hn, h4, h5, Except.isOk,
      Except.toBool]
  · intro now d ikp h1 h2 h3
    have hstage : updStage1 d = .error "isser invalid" := by
      simp [updStage1, h1, h2, h3]
    simp [updateJWT, hstage]
  · intro now d ikp h1 h2 h3 hn
    simp [updateJWT, updStage1, h1, h2, h3, hn, Except.isOk, Except.toBool]
  · intro now a it st nm skp ikp h1 h2 h3 hn h4 h5
    simp [runJwtFunctionObj, objStage1, libEncode, claimTypeOfTier, libSubjectOk,
      expectedIssuerTiers, h1, h2, h3, hn, h4, h5]
  · intro now a it st nm skp ikp h1 h2 h3 hn h4 h5
    simp [runJwtFunctionObj, objStage1, libEncode, claimTypeOfTier, libSubjectOk,
      expectedIssuerTiers, h1, h2, h3, hn, h4, h5, Except.isOk, Except.toBool]

/-- Witness for C2: concrete account-subject issuances — user issuers fail and operator
issuers produce a token, in all three paths. -/
theorem c2_org_subject_hierarchy_witness :
    runJwtFunction 0 w2RunBad = .error (.err "iss 错误") ∧
    (runJwtFunction 0 w2RunOk).isOk = true ∧
    updateJWT 0 w2UpdBad = .error "isser invalid" ∧
    (updateJWT 0 w2UpdOk).isOk = true ∧
    runJwtFunctionObj 0 w2ObjBad = .error (.err "编码JWT错误") ∧
    (runJwtFunctionObj 0 w2ObjOk).isOk = true := by
  obtain ⟨p1, p2, p3, p4, p5, p6⟩ := c2_org_subject_hierarchy
  exact ⟨p1 0 w2RunBad "SUUS1" "SAAC1" "n" kAcct kUser rfl rfl rfl rfl rfl,
    p2 0 w2RunOk "SOOP1" "SAAC1" "n" kAcct kOp rfl rfl rfl rfl rfl rfl rfl rfl rfl rfl,
    p3 0 w2UpdBad kUser rfl rfl rfl,
    p4 0 w2UpdOk kOp rfl rfl rfl rfl,
    p5 0 w2ObjBad "SUUS1" "SAAC1" "n" kAcct kUser rfl rfl rfl rfl rfl rfl,
    p6 0 w2ObjOk "SOOP1" "SAAC1" "n" kAcct kOp rfl rfl rfl rfl rfl rfl⟩

end Provider

namespace Provider

set_option maxRecDepth 200000 in
/-- Claim C5 counterexample: the serializer does not emit the signing-key map in a
stable sorted order. The same two-entry map serialized from its two range orders gives
different claim bytes, and two full runs over byte-identical logical inputs whose map is
enumerated in the two orders both succeed yet produce different tokens. -/
theorem c5_counterexample :
    w5a.Perm w5b ∧
    jsonClaims ⟨{}, .acctP w5a {}⟩ ≠ jsonClaims ⟨{}, .acctP w5b {}⟩ ∧
    (runJwtFunction 0 ordIn1).isOk = true ∧
    (runJwtFunction 0 ordIn2).isOk = true ∧
    ((runJwtFunction 0 ordIn1).toOption.map Prod.fst ≠
      (runJwtFunction 0 ordIn2).toOption.map Prod.fst) := by
  refine ⟨by decide, by decide, ?_, ?_, ?_⟩ <;> decide

/-- Claim C5 (amended): the Identifier Hash does yield the same ID string for account
claims differing only in the signing-key map order — but not by the claimed sorted-
serializer mechanism: the ID ignores the map order only because the hashed bytes are the
serialization of the envelope alone, which contains no signing keys (the payload never
enters the digest), while the serializer itself is order-sensitive: the rendered claim
bytes of the two range orders of a concrete two-entry map differ. -/
theorem c5_id_stable_under_map_order (cd : ClaimsData) (gf : GenericFields)
    (l₁ l₂ : List (String × Option String)) (_hp : l₁.Perm l₂) (pl pl' : Payload) :
    computeID ⟨cd, .acctP l₁ gf⟩ = computeID ⟨cd, .acctP l₂ gf⟩ ∧
    computeID ⟨cd, pl⟩ = computeID ⟨cd, pl'⟩ ∧
    jsonClaims ⟨{}, .acctP w5a {}⟩ ≠ jsonClaims ⟨{}, .acctP w5b {}⟩ :=
  ⟨rfl, rfl, by decide⟩

/-- Witness for C5: a concrete two-entry map in both range orders yields the same ID,
which also equals the ID of claims with entirely different payloads. -/
theorem c5_id_stable_under_map_order_witness :
    computeID ⟨{}, .acctP w5a {}⟩ = computeID ⟨{}, .acctP w5b {}⟩ ∧
    computeID ⟨{}, .userP {}⟩ = computeID ⟨{}, .opP ["OP1"] {}⟩ ∧
    jsonClaims ⟨{}, .acctP w5a {}⟩ ≠ jsonClaims ⟨{}, .acctP w5b {}⟩ :=
  c5_id_stable_under_map_order {} {} w5a w5b (by decide) (.userP {}) (.opP ["OP1"] {})

end Provider

namespace Provider

theorem finalizeToken_congr (kp : KeyPairModel) (c d : FullClaims)
    (hcd : ({ c.cd with jti := "" } : ClaimsData) = { d.cd with jti := "" })
    (hpl : c.payload = d.payload) : finalizeToken kp c = finalizeToken kp d := by
  obtain ⟨⟨a1, a2, a3, a4, a5, a6, a7, a8⟩, pl1⟩ := c
  obtain ⟨⟨b1, b2, b3, b4, b5, b6, b7, b8⟩, pl2⟩ := d
  simp only at hcd hpl
  injection hcd with e1 e2 e3 e4 e5 e6 e7 e8
  subst e1
  subst e2
  subst e4
  subst e5
  subst e6
  subst e7
  subst e8
  subst hpl
  rfl

set_option maxRecDepth 200000 in
/-- Claim C3 counterexample: with byte-identical inputs and no iat supplied, two
invocations at different wall-clock instants produce different tokens — the output
depends on the current time. -/
theorem c3_counterexample :
    ((runJwtFunction 1 c3In).toOption.map Prod.fst) ≠
      ((runJwtFunction 2 c3In).toOption.map Prod.fst) := by
  decide

theorem libEncode_eq (now : Int) (issuer : KeyPairModel) (subTier : PrefixByte)
    (ct : ClaimType) (c : FullClaims) :
    libEncode now issuer subTier ct c =
      if libSubjectOk ct subTier then
        if (expectedIssuerTiers ct).contains issuer.tier then
          .ok (finalizeToken issuer (encReady now issuer ct c))
        else .error "unable to validate expected prefixes"
      else .error "invalid subject" := rfl

theorem setIat_setJti_comm (c : FullClaims) (hsh : String) (v : Int) :
    setIat v (setJti hsh c) = setJti hsh (setIat v c) := by
  obtain ⟨⟨a1, a2, a3, a4, a5, a6, a7, a8⟩, pl⟩ := c
  rfl

theorem finalizeToken_setJti (kp : KeyPairModel) (c : FullClaims) (hsh : String) :
    finalizeToken kp (setJti hsh c) = finalizeToken kp c := by
  obtain ⟨⟨a1, a2, a3, a4, a5, a6, a7, a8⟩, pl⟩ := c
  rfl

theorem setIat_encReady (v t now : Int) (issuer : KeyPairModel) (ct : ClaimType)
    (c : FullClaims) : setIat v (encReady t issuer ct c) = setIat v (encReady now issuer ct c) := by
  obtain ⟨⟨a1, a2, a3, a4, a5, a6, a7, a8⟩, pl⟩ := c
  rfl

theorem runTail_time_invariant (t1 t2 : Int) (ikp : KeyPairModel) (st : PrefixByte)
    (c1 : FullClaims) (s : String) :
    runTail t1 ikp st c1 (some s) = runTail t2 ikp st c1 (some s) := by
  unfold runTail
  simp only [libEncode_eq]
  by_cases hA : libSubjectOk (claimTypeOfTier st) st = true
  · by_cases hB : (expectedIssuerTiers (claimTypeOfTier st)).contains ikp.tier = true
    · by_cases hp2 : (goParseInt64 s).2 = true
      · simp only [hA, hB, hp2, if_true, finalizeToken_claims]
        rw [setIat_setJti_comm, setIat_setJti_comm, finalizeToken_setJti,
          finalizeToken_setJti, setIat_encReady (goParseInt64 s).1 t1 0,
          setIat_encReady (goParseInt64 s).1 t2 0]
      · simp only [hA, hB, hp2, if_true, Bool.false_eq_true, if_false]
    · simp only [hA, hB, if_true, Bool.false_eq_true, if_false]
  · simp only [hA, Bool.false_eq_true, if_false]

set_option maxRecDepth 200000 in
/-- Claim C3 (amended): issuance is deterministic only when iat is supplied, and even
then only up to the incidental range order of the account signing-key map. With iat
supplied the wall clock has no influence on the token (first conjunct, over inputs whose
map enumeration order is part of the RunArgs representation); but byte-identical logical
inputs whose signing-key map is enumerated in different range orders still produce
different tokens (second conjunct), because the map is serialized unsorted in range
order. When iat is absent, the library encode stamps the current time into IssuedAt so
outputs at different instants differ (see the counterexample). -/
theorem c3_deterministic_with_iat (t1 t2 : Int) (a : RunArgs) (s : String)
    (h : a.iat = some s) :
    runJwtFunction t1 a = runJwtFunction t2 a ∧
    ((runJwtFunction 0 ordIn1).toOption.map Prod.fst ≠
      (runJwtFunction 0 ordIn2).toOption.map Prod.fst) := by
  constructor
  · unfold runJwtFunction
    cases hs : runStage1 a with
    | error e => rfl
    | ok z =>
      obtain ⟨ikp, st, c1⟩ := z
      rw [h]
      exact runTail_time_invariant t1 t2 ikp st c1 s
  · decide

/-- Witness for C3: with iat supplied, runs at two different instants agree, while the
two range orders of the same signing-key map still give different tokens. -/
theorem c3_deterministic_with_iat_witness :
    (runJwtFunction 11 w3Run = runJwtFunction 22 w3Run ∧
      ((runJwtFunction 0 ordIn1).toOption.map Prod.fst ≠
        (runJwtFunction 0 ordIn2).toOption.map Prod.fst)) :=
  c3_deterministic_with_iat 11 22 w3Run "7" rfl

end Provider

namespace Provider

set_option maxRecDepth 200000 in
/-- Claim C4 counterexample: a successfully issued token's embedded ID does not equal the
base-32 no-padding SHA-512/256 digest of the JSON serialization of the full claims
(envelope plus payload) with the ID blanked — the code hashes the envelope only. -/
theorem c4_counterexample :
    ((runJwtFunction 0 c4In).toOption.map (fun r => r.2.cd.jti == specIDFull r.2)) =
      some false := by
  decide

/-- Claim C4 (amended): the embedded ID equals the base-32 no-padding encoding of the
SHA-512/256 digest of the JSON serialization of the envelope (ClaimsData) alone with the
ID field forced to the empty string — computeID unfolds to exactly that — and the ID is
written into the claims before the payload segment is serialized: the token's middle
segment serializes the claims carrying that ID. -/
theorem c4_id_from_envelope_hash :
    (∀ (now : Int) (a : RunArgs) (r : String × FullClaims), runJwtFunction now a = .ok r →
      r.2.cd.jti = computeID r.2 ∧
      ∃ sig, r.1 = serialize headerJson ++ "." ++ serialize (jsonClaims r.2) ++ "." ++ sig) ∧
    (∀ (now : Int) (d : JwtData) (r : String × FullClaims), updateJWT now d = .ok r →
      r.2.cd.jti = computeID r.2 ∧
      ∃ sig, r.1 = serialize headerJson ++ "." ++ serialize (jsonClaims r.2) ++ "." ++ sig) := by
  constructor
  · intro now a r h
    obtain ⟨it, ikp, c, hiss, hr⟩ := runJwtFunction_ok now a r h
    subst hr
    exact ⟨finalizeToken_id ikp c, _, finalizeToken_fst ikp c⟩
  · intro now d r h
    obtain ⟨ikp, c, hd, hr, hg⟩ := updateJWT_ok now d r h
    subst hr
    exact ⟨finalizeToken_id ikp c, _, finalizeToken_fst ikp c⟩

/-- Witness for C4: a successful concrete run satisfies the envelope-hash ID law and the
token layout. -/
theorem c4_id_from_envelope_hash_witness :
    ∃ r, runJwtFunction 0 w2RunOk = .ok r ∧ r.2.cd.jti = computeID r.2 ∧
      ∃ sig, r.1 = serialize headerJson ++ "." ++ serialize (jsonClaims r.2) ++ "." ++ sig := by
  rcases hEq : runJwtFunction 0 w2RunOk with e | r
  · exfalso
    have hok : (runJwtFunction 0 w2RunOk).isOk = true := by decide
    rw [hEq] at hok
    simp [Except.isOk, Except.toBool] at hok
  · obtain ⟨h1, h2⟩ := c4_id_from_envelope_hash.1 0 w2RunOk r hEq
    exact ⟨r, rfl, h1, h2⟩

end Provider

namespace Provider

theorem shaRound_length (w s : List Nat) (t : Nat) : (shaRound w s t).length = s.length := by
  unfold shaRound
  split
  · rfl
  · rfl

theorem foldl_length_preserving {α : Type} (f : List Nat → α → List Nat)
    (hf : ∀ s t, (f s t).length = s.length) :
    ∀ (l : List α) (s : List Nat), (List.foldl f s l).length = s.length := by
  intro l
  induction l with
  | nil => intro s; rfl
  | cons x xs ih =>
    intro s
    rw [List.foldl_cons, ih, hf]

theorem compress_length (H b : List Nat) (h : H.length = 8) : (compress H b).length = 8 := by
  unfold compress
  rw [List.length_zipWith,
    foldl_length_preserving (shaRound (sched (chunk8 b))) (shaRound_length _) _ _, h]
  rfl

theorem sha512Core_length (iv : List Nat) (msg : List Nat) (h : iv.length = 8) :
    (sha512Core iv msg).length = 8 := by
  unfold sha512Core
  generalize blocks (pad512 msg) = bs
  induction bs generalizing iv with
  | nil => simpa using h
  | cons b rest ih =>
    rw [List.foldl_cons]
    exact ih _ (compress_length _ _ h)

theorem beBytes_length (k : Nat) : ∀ n, (beBytes k n).length = k := by
  induction k with
  | zero => intro n; rfl
  | succ m ih =>
    intro n
    simp [beBytes, ih]

theorem sha512Full_ne_nil (msg : List Nat) : sha512Full msg ≠ [] := by
  unfold sha512Full
  have h8 : (sha512Core sha512IV msg).length = 8 := sha512Core_length _ _ (by decide)
  cases hw : sha512Core sha512IV msg with
  | nil => rw [hw] at h8; simp at h8
  | cons w rest =>
    simp only [List.flatMap_cons, ne_eq, List.append_eq_nil]
    intro hc
    have hb := congrArg List.length hc.1
    rw [beBytes_length] at hb
    simp at hb

theorem signEd_ne_nil (sk msg : List Nat) : signEd sk msg ≠ [] := sha512Full_ne_nil _

/-- Claim C8: every successfully issued token is exactly three dot-joined, non-empty
base64url-no-padding segments with no '.' inside any segment, and the byte sequence that
was signed for the third segment is exactly headerSegment ++ "." ++ payloadSegment. -/
theorem c8_token_shape :
    (∀ (now : Int) (a : RunArgs) (r : String × FullClaims) (it : String)
      (ikp : KeyPairModel), a.iss = some ⟨it, some ikp⟩ → runJwtFunction now a = .ok r →
      ∃ hs ps ss, r.1 = hs ++ "." ++ ps ++ "." ++ ss ∧ hs ≠ "" ∧ ps ≠ "" ∧ ss ≠ "" ∧
        (∀ ch ∈ hs.data, ch ∈ b64UrlChars ∧ ch ≠ '.') ∧
        (∀ ch ∈ ps.data, ch ∈ b64UrlChars ∧ ch ≠ '.') ∧
        (∀ ch ∈ ss.data, ch ∈ b64UrlChars ∧ ch ≠ '.') ∧
        ss = encodeToString (signEd ikp.sk (utf8Bytes (hs ++ "." ++ ps)))) ∧
    (∀ (now : Int) (d : JwtData) (r : String × FullClaims) (ikp : KeyPairModel),
      d.iss.decoded = some ikp → updateJWT now d = .ok r →
      ∃ hs ps ss, r.1 = hs ++ "." ++ ps ++ "." ++ ss ∧ hs ≠ "" ∧ ps ≠ "" ∧ ss ≠ "" ∧
        (∀ ch ∈ hs.data, ch ∈ b64UrlChars ∧ ch ≠ '.') ∧
        (∀ ch ∈ ps.data, ch ∈ b64UrlChars ∧ ch ≠ '.') ∧
        (∀ ch ∈ ss.data, ch ∈ b64UrlChars ∧ ch ≠ '.') ∧
        ss = encodeToString (signEd ikp.sk (utf8Bytes (hs ++ "." ++ ps)))) := by
  constructor
  · intro now a r it ikp hiss h
    obtain ⟨it2, ikp2, c, hiss2, hr⟩ := runJwtFunction_ok now a r h
    rw [hiss] at hiss2
    injection hiss2 with h2
    injection h2 with ht hd
    injection hd with hk
    subst hk
    subst hr
    refine ⟨serialize headerJson, serialize (jsonClaims (finalizeToken ikp c).2), _,
      finalizeToken_fst ikp c, serialize_ne_empty _ (by decide),
      serialize_ne_empty _ (jsonClaims_data_ne_nil _),
      rawURLEnc_ne_empty _ (signEd_ne_nil _ _),
      serialize_spec _, serialize_spec _, rawURLEnc_spec _, rfl⟩
  · intro now d r ikp hdec h
    obtain ⟨ikp2, c, hdec2, hr, hg⟩ := updateJWT_ok now d r h
    rw [hdec] at hdec2
    injection hdec2 with hk
    subst hk
    subst hr
    refine ⟨serialize headerJson, serialize (jsonClaims (finalizeToken ikp c).2), _,
      finalizeToken_fst ikp c, serialize_ne_empty _ (by decide),
      serialize_ne_empty _ (jsonClaims_data_ne_nil _),
      rawURLEnc_ne_empty _ (signEd_ne_nil _ _),
      serialize_spec _, serialize_spec _, rawURLEnc_spec _, rfl⟩

/-- Witness for C8: concrete tokens from both engines have the three-segment shape. -/
theorem c8_token_shape_witness :
    (∃ r, runJwtFunction 0 w2RunOk = .ok r ∧
      ∃ hs ps ss, r.1 = hs ++ "." ++ ps ++ "." ++ ss ∧ hs ≠ "" ∧ ps ≠ "" ∧ ss ≠ "" ∧
        (∀ ch ∈ hs.data, ch ∈ b64UrlChars ∧ ch ≠ '.') ∧
        (∀ ch ∈ ps.data, ch ∈ b64UrlChars ∧ ch ≠ '.') ∧
        (∀ ch ∈ ss.data, ch ∈ b64UrlChars ∧ ch ≠ '.') ∧
        ss = encodeToString (signEd kOp.sk (utf8Bytes (hs ++ "." ++ ps)))) ∧
    (∃ r, updateJWT 0 w2UpdOk = .ok r ∧
      ∃ hs ps ss, r.1 = hs ++ "." ++ ps ++ "." ++ ss ∧ hs ≠ "" ∧ ps ≠ "" ∧ ss ≠ "" ∧
        (∀ ch ∈ hs.data, ch ∈ b64UrlChars ∧ ch ≠ '.') ∧
        (∀ ch ∈ ps.data, ch ∈ b64UrlChars ∧ ch ≠ '.') ∧
        (∀ ch ∈ ss.data, ch ∈ b64UrlChars ∧ ch ≠ '.') ∧
        ss = encodeToString (signEd kOp.sk (utf8Bytes (hs ++ "." ++ ps)))) := by
  constructor
  · rcases hEq : runJwtFunction 0 w2RunOk with e | r
    · exfalso
      have hok : (runJwtFunction 0 w2RunOk).isOk = true := by decide
      rw [hEq] at hok
      simp [Except.isOk, Except.toBool] at hok
    · exact ⟨r, rfl, c8_token_shape.1 0 w2RunOk r "SOOP1" kOp rfl hEq⟩
  · rcases hEq : updateJWT 0 w2UpdOk with e | r
    · exfalso
      have hok : (updateJWT 0 w2UpdOk).isOk = true := by decide
      rw [hEq] at hok
      simp [Except.isOk, Except.toBool] at hok
    · exact ⟨r, rfl, c8_token_shape.2 0 w2UpdOk r kOp rfl hEq⟩

end Provider

namespace Provider

/-- Claim C7 counterexample: UpdateJWT does not decode, tier-check or re-encode the
extension signing keys — a user-tier signing key inside an operator payload is accepted
and the raw entry text is embedded unchanged in the successful result. -/
theorem c7_counterexample :
    ((updateJWT 0 c7In).toOption.map (fun r => opKeysOf r.2.payload)) =
      some (some ["SUUS1"]) := by
  decide

/-- Claim C7 (amended): in JwtFunction.Run every signing-key entry of a Top-tier or
Org-tier payload is decoded, tier-checked against the expected delegation tier (a
decodable wrong-tier entry aborts with the signing-key type error), and replaced by its
public identifier before being embedded in the signed payload; UpdateJWT, by contrast,
embeds the extension entries without any such processing (see the counterexample). -/
theorem c7_run_signing_keys_processed :
    (∀ (now : Int) (a : RunArgs) (r : String × FullClaims) (it st nm : String)
      (skp ikp : KeyPairModel) (nb : NatsBlob) (ext : OpExt),
      a.iss = some ⟨it, some ikp⟩ → a.sub = some ⟨st, some skp⟩ → a.name = some nm →
      a.aud = none → a.exp = none → a.nbf = none → a.iat = none →
      skp.tier = .operator → ikp.tier = .operator →
      a.nats = some nb → nb.asOperator = some ext →
      runJwtFunction now a = .ok r →
      ∃ ks, processOpKeys "signing_key 错误" ext.signingKeys = .ok ks ∧
        opKeysOf r.2.payload = some ks ∧
        List.Forall₂ (fun s k => ∃ kp, s.decoded = some kp ∧ kp.tier = .operator ∧
          k = kp.pubText) ext.signingKeys ks) ∧
    (∀ (now : Int) (a : RunArgs) (it st nm : String) (skp ikp : KeyPairModel)
      (nb : NatsBlob) (ext : OpExt),
      a.iss = some ⟨it, some ikp⟩ → a.sub = some ⟨st, some skp⟩ → a.name = some nm →
      skp.tier = .operator → ikp.tier = .operator →
      a.nats = some nb → nb.asOperator = some ext →
      (∀ s ∈ ext.signingKeys, (s.decoded).isSome = true) →
      (∃ s ∈ ext.signingKeys, ∃ kp, s.decoded = some kp ∧ kp.tier ≠ .operator) →
      runJwtFunction now a = .error (.err "signing_key 类型错误")) ∧
    (∀ (now : Int) (a : RunArgs) (r : String × FullClaims) (it st nm : String)
      (skp ikp : KeyPairModel) (nb : NatsBlob) (ext : AcctExt),
      a.iss = some ⟨it, some ikp⟩ → a.sub = some ⟨st, some skp⟩ → a.name = some nm →
      a.aud = none → a.exp = none → a.nbf = none → a.iat = none →
      skp.tier = .account → ikp.tier = .operator →
      a.nats = some nb → nb.asAccount = some ext →
      runJwtFunction now a = .ok r →
      ∃ ks, processAcctKeys "signing_key 错误" ext.signingKeys = .ok ks ∧
        acctKeysOf r.2.payload = some (buildMap ks) ∧
        List.Forall₂ (fun e p => ∃ kp, e.1.decoded = some kp ∧ kp.tier = .account ∧
          p.1 = kp.pubText ∧ p.2 = e.2) ext.signingKeys ks) ∧
    (∀ (now : Int) (a : RunArgs) (it st nm : String) (skp ikp : KeyPairModel)
      (nb : NatsBlob) (ext : AcctExt),
      a.iss = some ⟨it, some ikp⟩ → a.sub = some ⟨st, some skp⟩ → a.name = some nm →
      skp.tier = .account → ikp.tier = .operator →
      a.nats = some nb → nb.asAccount = some ext →
      (∀ e ∈ ext.signingKeys, (e.1.decoded).isSome = true) →
      (∃ e ∈ ext.signingKeys, ∃ kp, e.1.decoded = some kp ∧ kp.tier ≠ .account) →
      runJwtFunction now a = .error (.err "signing_key 类型错误")) := by
  refine ⟨?_, ?_, ?_, ?_⟩
  · intro now a r it st nm skp ikp nb ext h1 h2 h3 ha he hb hi h4 h5 h6 h7 hrun
    cases hk : processOpKeys "signing_key 错误" ext.signingKeys with
    | error e =>
      exfalso
      have hx : runJwtFunction now a = .error e := by
        simp [runJwtFunction, runStage1, h1, h2, h3, h4, h5, h6, h7, hk]
      rw [hx] at hrun
      exact Except.noConfusion hrun
    | ok ks =>
      have hx : runJwtFunction now a =
          .ok (finalizeToken ikp (encReady now ikp .operatorClaim
            { cd := { sub := skp.pubText, iss := ikp.pubText, name := nm },
              payload := .opP ks ⟨none, 0⟩ })) := by
        simp [runJwtFunction, runStage1, runTail, libEncode_eq, claimTypeOfTier,
          libSubjectOk, expectedIssuerTiers, h1, h2, h3, ha, he, hb, hi, h4, h5, h6, h7,
          hk]
        rw [finalizeToken_claims, finalizeToken_setJti]
      rw [hx] at hrun
      injection hrun with h8
      refine ⟨ks, rfl, ?_, processOpKeys_ok_rel _ _ _ hk⟩
      rw [← h8, finalizeToken_payload]
      rfl
  · intro now a it st nm skp ikp nb ext h1 h2 h3 h4 h5 h6 h7 hall hex
    have hk := processOpKeys_mismatch "signing_key 错误" ext.signingKeys hall hex
    simp [runJwtFunction, runStage1, h1, h2, h3, h4, h5, h6, h7, hk]
  · intro now a r it st nm skp ikp nb ext h1 h2 h3 ha he hb hi h4 h5 h6 h7 hrun
    cases hk : processAcctKeys "signing_key 错误" ext.signingKeys with
    | error e =>
      exfalso
      have hx : runJwtFunction now a = .error e := by
        simp [runJwtFunction, runStage1, h1, h2, h3, h4, h5, h6, h7, hk]
      rw [hx] at hrun
      exact Except.noConfusion hrun
    | ok ks =>
      have hx : runJwtFunction now a =
          .ok (finalizeToken ikp (encReady now ikp .accountClaim
            { cd := { sub := skp.pubText, iss := ikp.pubText, name := nm },
              payload := .acctP (buildMap ks) ⟨none, 0⟩ })) := by
        simp [runJwtFunction, runStage1, runTail, libEncode_eq, claimTypeOfTier,
          libSubjectOk, expectedIssuerTiers, h1, h2, h3, ha, he, hb, hi, h4, h5, h6, h7,
          hk]
        rw [finalizeToken_claims, finalizeToken_setJti]
      rw [hx] at hrun
      injection hrun with h8
      refine ⟨ks, rfl, ?_, processAcctKeys_ok_rel _ _ _ hk⟩
      rw [← h8, finalizeToken_payload]
      rfl
  · intro now a it st nm skp ikp nb ext h1 h2 h3 h4 h5 h6 h7 hall hex
    have hk := processAcctKeys_mismatch "signing_key 错误" ext.signingKeys hall hex
    simp [runJwtFunction, runStage1, h1, h2, h3, h4, h5, h6, h7, hk]

end Provider

namespace Provider

/-- Witness for C7: a valid operator signing key is re-encoded to its public identifier,
wrong-tier keys abort, and the account map variant behaves likewise. -/
theorem c7_run_signing_keys_processed_witness :
    (∃ r, runJwtFunction 0 w7Run = .ok r ∧
      ∃ ks, processOpKeys "signing_key 错误" [sOp] = .ok ks ∧
        opKeysOf r.2.payload = some ks ∧
        List.Forall₂ (fun s k => ∃ kp, s.decoded = some kp ∧ kp.tier = .operator ∧
          k = kp.pubText) [sOp] ks) ∧
    runJwtFunction 0 w7RunBad = .error (.err "signing_key 类型错误") ∧
    (∃ r, runJwtFunction 0 w7RunAcct = .ok r ∧
      ∃ ks, processAcctKeys "signing_key 错误" [(sAcct2, some "tag")] = .ok ks ∧
        acctKeysOf r.2.payload = some (buildMap ks) ∧
        List.Forall₂ (fun e p => ∃ kp, e.1.decoded = some kp ∧ kp.tier = .account ∧
          p.1 = kp.pubText ∧ p.2 = e.2) [(sAcct2, some "tag")] ks) ∧
    runJwtFunction 0 w7RunAcctBad = .error (.err "signing_key 类型错误") := by
  refine ⟨?_, ?_, ?_, ?_⟩
  · rcases hEq : runJwtFunction 0 w7Run with e | r
    · exfalso
      have hok : (runJwtFunction 0 w7Run).isOk = true := by decide
      rw [hEq] at hok
      simp [Except.isOk, Except.toBool] at hok
    · exact ⟨r, rfl, c7_run_signing_keys_processed.1 0 w7Run r "SOOP1" "SOOP2" "n" kOp2
        kOp _ _ rfl rfl rfl rfl rfl rfl rfl rfl rfl rfl rfl hEq⟩
  · exact c7_run_signing_keys_processed.2.1 0 w7RunBad "SOOP1" "SOOP2" "n" kOp2 kOp _ _
      rfl rfl rfl rfl rfl rfl rfl (by decide) ⟨sUser, by decide, kUser, rfl, by decide⟩
  · rcases hEq : runJwtFunction 0 w7RunAcct with e | r
    · exfalso
      have hok : (runJwtFunction 0 w7RunAcct).isOk = true := by decide
      rw [hEq] at hok
      simp [Except.isOk, Except.toBool] at hok
    · exact ⟨r, rfl, c7_run_signing_keys_processed.2.2.1 0 w7RunAcct r "SOOP1" "SAAC1" "n"
        kAcct kOp _ _ rfl rfl rfl rfl rfl rfl rfl rfl rfl rfl rfl hEq⟩
  · exact c7_run_signing_keys_processed.2.2.2 0 w7RunAcctBad "SOOP1" "SAAC1" "n" kAcct kOp
      _ _ rfl rfl rfl rfl rfl rfl rfl (by decide)
      ⟨(sUser, none), by decide, kUser, rfl, by decide⟩

end Provider
